import Mathlib

/- Verification model of the IHC court-portal scraper (src/scraper.py and
src/scraper_testing.py).  Text is modelled as lists of characters; the
Python datetime library is modelled by a proleptic Gregorian calendar;
browser interaction (Selenium) is modelled by explicit oracle structures
whose fields record what the DOM lookups of the source would return, and
operations that may raise are given Except-typed fields. -/

abbrev Str := List Char

/-- Whitespace test mirroring the Python regex class backslash-s
(space, tab, newline, carriage return, vertical tab, form feed). -/
def wsChar (c : Char) : Bool :=
  c == ' ' || c == '\t' || c == '\n' || c == '\r' || c == '\x0b' || c == '\x0c'

/-- Word character test mirroring the Python regex class backslash-w
restricted to ASCII: letters, digits and underscore. -/
def wordChar (c : Char) : Bool := c.isAlphanum || c == '_'

/-- Digit test mirroring the Python regex class backslash-d (ASCII digits). -/
def digitChar (c : Char) : Bool := c.isDigit

/-- ASCII letter test; the classes [A-Z] and [a-z] under re.IGNORECASE
both match any letter. -/
def alphaChar (c : Char) : Bool := c.isAlpha

/-- Python str.strip with no argument: drop whitespace on both ends. -/
def stripStr (s : Str) : Str :=
  ((s.dropWhile wsChar).reverse.dropWhile wsChar).reverse

/-- Python str.lower restricted to ASCII. -/
def lowerStr (s : Str) : Str := s.map Char.toLower

/-- Python str.upper restricted to ASCII. -/
def upperStr (s : Str) : Str := s.map Char.toUpper

/-- Helper for Python str.title: the flag records whether the previous
character was a letter. -/
def titleAux : Bool → Str → Str
  | _, [] => []
  | prev, c :: t =>
    (if c.isAlpha then (if prev then c.toLower else c.toUpper) else c)
      :: titleAux c.isAlpha t

/-- Python str.title restricted to ASCII letters. -/
def titleStr (s : Str) : Str := titleAux false s

/-- Helper mirroring re.sub of one-or-more whitespace by a single space:
each maximal whitespace run collapses to one space; the flag records
whether the run currently being read has already emitted its space. -/
def collapseWsAux : Bool → Str → Str
  | _, [] => []
  | inRun, c :: t =>
    if wsChar c then
      (if inRun then collapseWsAux true t else ' ' :: collapseWsAux true t)
    else c :: collapseWsAux false t

/-- The substitution re.sub of a whitespace run by a single space. -/
def collapseWs (s : Str) : Str := collapseWsAux false s

/-- List-prefix test written out (true when the first argument is an
initial segment of the second). -/
def startsWith : Str → Str → Bool
  | [], _ => true
  | _ :: _, [] => false
  | p :: ps, c :: cs => p == c && startsWith ps cs

/-- Python substring membership, the `in` operator on strings. -/
def hasSubstr (pat : Str) : Str → Bool
  | [] => startsWith pat []
  | c :: t => startsWith pat (c :: t) || hasSubstr pat t

/-- Case-insensitive substring membership (both sides lowered). -/
def containsCi (pat s : Str) : Bool := hasSubstr (lowerStr pat) (lowerStr s)

/- Calendar model of the Python datetime library (proleptic Gregorian). -/

/-- Gregorian leap-year rule, as in the datetime module. -/
def isLeapYear (y : Nat) : Bool :=
  y % 4 == 0 && (y % 100 != 0 || y % 400 == 0)

/-- Length of a month, as in the datetime module. -/
def daysInMonth (y m : Nat) : Nat :=
  if m = 2 then (if isLeapYear y then 29 else 28)
  else if m = 4 ∨ m = 6 ∨ m = 9 ∨ m = 11 then 30
  else 31

/-- A calendar date; Python datetime values at midnight are identified
with their date component. -/
structure Date where
  year : Nat
  month : Nat
  day : Nat
deriving DecidableEq, Repr

/-- The dates representable by Python datetime (year at least MINYEAR = 1,
month and day in range for that month). -/
def ValidDate (d : Date) : Prop :=
  1 ≤ d.year ∧ 1 ≤ d.month ∧ d.month ≤ 12 ∧ 1 ≤ d.day ∧
    d.day ≤ daysInMonth d.year d.month

instance (d : Date) : Decidable (ValidDate d) := by
  unfold ValidDate; infer_instance

/-- Adding timedelta(days=1) to a date. -/
def nextDay (d : Date) : Date :=
  if d.day < daysInMonth d.year d.month then ⟨d.year, d.month, d.day + 1⟩
  else if d.month < 12 then ⟨d.year, d.month + 1, 1⟩
  else ⟨d.year + 1, 1, 1⟩

/-- Number of leap years in the interval [1, y]. -/
def leapsBefore : Nat → Nat
  | 0 => 0
  | y + 1 => leapsBefore y + (if isLeapYear (y + 1) then 1 else 0)

/-- Days in year y that precede month m (the usual cumulative table with
the leap adjustment after February, as in the datetime module). -/
def daysBeforeMonth (y m : Nat) : Nat :=
  (match m with
   | 1 => 0 | 2 => 31 | 3 => 59 | 4 => 90 | 5 => 120 | 6 => 151 | 7 => 181
   | 8 => 212 | 9 => 243 | 10 => 273 | 11 => 304 | 12 => 334
   | _ => 365)
  + (if 2 < m then (if isLeapYear y then 1 else 0) else 0)

/-- The datetime.toordinal map: day number with 0001-01-01 mapped to 1.
Python datetime comparison is chronological order, modelled here as
comparison of ordinals. -/
def toOrdinal (d : Date) : Nat :=
  365 * (d.year - 1) + leapsBefore (d.year - 1)
    + daysBeforeMonth d.year d.month + d.day

lemma daysInMonth_pos (y m : Nat) : 1 ≤ daysInMonth y m := by
  unfold daysInMonth
  split
  · split <;> omega
  · split <;> omega

lemma daysInMonth_le (y m : Nat) : daysInMonth y m ≤ 31 := by
  unfold daysInMonth
  split
  · split <;> omega
  · split <;> omega

lemma leapsBefore_succ (y : Nat) :
    leapsBefore (y + 1) = leapsBefore y + (if isLeapYear (y + 1) then 1 else 0) := rfl

lemma daysBeforeMonth_succ (y m : Nat) (h1 : 1 ≤ m) (h2 : m ≤ 12) :
    daysBeforeMonth y (m + 1) = daysBeforeMonth y m + daysInMonth y m := by
  interval_cases m <;>
    rcases h : isLeapYear y <;>
      simp [daysBeforeMonth, daysInMonth, h]

lemma daysBeforeMonth_mono (y m n : Nat) (h1 : 1 ≤ m) (h : m ≤ n) (h2 : n ≤ 13) :
    daysBeforeMonth y m ≤ daysBeforeMonth y n := by
  induction n, h using Nat.le_induction with
  | base => exact Nat.le_refl _
  | succ n hn ih =>
    have hn12 : n ≤ 12 := by omega
    have := ih (by omega)
    rw [daysBeforeMonth_succ y n (by omega) hn12]
    have := daysInMonth_pos y n
    omega

lemma daysBeforeMonth_13 (y : Nat) :
    daysBeforeMonth y 13 = 365 + (if isLeapYear y then 1 else 0) := by
  rcases h : isLeapYear y <;> simp [daysBeforeMonth, h]

lemma ord_nextDay (d : Date) (h : ValidDate d) :
    toOrdinal (nextDay d) = toOrdinal d + 1 := by
  obtain ⟨y, m, day⟩ := d
  unfold ValidDate at h
  dsimp only at h
  obtain ⟨hy, hm1, hm2, hd1, hd2⟩ := h
  unfold nextDay
  dsimp only
  split
  · unfold toOrdinal; dsimp only; omega
  · split
    · unfold toOrdinal; dsimp only
      rw [daysBeforeMonth_succ y m hm1 hm2]
      omega
    · rename_i hlt hmon
      have hm12 : m = 12 := by omega
      subst hm12
      have hdim : daysInMonth y 12 = 31 := by simp [daysInMonth]
      rw [hdim] at hlt hd2
      have hday : day = 31 := by omega
      subst hday
      obtain ⟨k, rfl⟩ : ∃ k, y = k + 1 := ⟨y - 1, by omega⟩
      unfold toOrdinal
      dsimp only
      simp only [Nat.add_sub_cancel]
      rw [leapsBefore_succ k]
      rcases hl : isLeapYear (k + 1) <;> simp [daysBeforeMonth, hl] <;> omega

lemma valid_nextDay (d : Date) (h : ValidDate d) : ValidDate (nextDay d) := by
  obtain ⟨y, m, day⟩ := d
  unfold ValidDate at h
  dsimp only at h
  obtain ⟨hy, hm1, hm2, hd1, hd2⟩ := h
  unfold nextDay
  dsimp only
  split
  · refine ⟨hy, hm1, hm2, ?_, ?_⟩ <;> dsimp only <;> omega
  · split
    · have hp := daysInMonth_pos y (m + 1)
      refine ⟨hy, ?_, ?_, ?_, ?_⟩ <;> dsimp only <;> omega
    · have hp := daysInMonth_pos (y + 1) 1
      refine ⟨?_, ?_, ?_, ?_, ?_⟩ <;> dsimp only <;> omega

/-- Ordinal of the end of year y (day count through 31 December of y). -/
def yearOrd (y : Nat) : Nat := 365 * y + leapsBefore y

lemma yearOrd_mono : Monotone yearOrd := by
  apply monotone_nat_of_le_succ
  intro n
  simp [yearOrd, leapsBefore_succ]
  split <;> omega

lemma ord_le_yearOrd (d : Date) (h : ValidDate d) : toOrdinal d ≤ yearOrd d.year := by
  obtain ⟨y, m, day⟩ := d
  unfold ValidDate at h
  dsimp only at h
  obtain ⟨hy, hm1, hm2, hd1, hd2⟩ := h
  obtain ⟨k, rfl⟩ : ∃ k, y = k + 1 := ⟨y - 1, by omega⟩
  have h13 : daysBeforeMonth (k + 1) m + daysInMonth (k + 1) m
      ≤ daysBeforeMonth (k + 1) 13 := by
    rw [← daysBeforeMonth_succ (k + 1) m hm1 hm2]
    exact daysBeforeMonth_mono (k + 1) (m + 1) 13 (by omega) (by omega) (by omega)
  rw [daysBeforeMonth_13] at h13
  unfold toOrdinal yearOrd
  dsimp only
  simp only [Nat.add_sub_cancel]
  rw [leapsBefore_succ k]
  rcases hl : isLeapYear (k + 1) <;> simp [hl] at h13 ⊢ <;> omega

lemma yearOrd_lt_ord (d : Date) (h : ValidDate d) :
    yearOrd (d.year - 1) < toOrdinal d := by
  obtain ⟨hy, hm1, hm2, hd1, hd2⟩ := h
  unfold toOrdinal yearOrd
  omega

lemma ord_lt_of_year_lt (d1 d2 : Date) (h1 : ValidDate d1) (h2 : ValidDate d2)
    (h : d1.year < d2.year) : toOrdinal d1 < toOrdinal d2 := by
  have ha := ord_le_yearOrd d1 h1
  have hb := yearOrd_lt_ord d2 h2
  have hc : yearOrd d1.year ≤ yearOrd (d2.year - 1) := yearOrd_mono (by omega)
  omega

lemma ord_lt_of_month_lt (d1 d2 : Date) (h1 : ValidDate d1) (h2 : ValidDate d2)
    (hy : d1.year = d2.year) (h : d1.month < d2.month) :
    toOrdinal d1 < toOrdinal d2 := by
  obtain ⟨y1, m1, day1⟩ := d1
  obtain ⟨y2, m2, day2⟩ := d2
  unfold ValidDate at h1 h2
  dsimp only at h1 h2 hy h ⊢
  obtain ⟨hy1, hm1, hm2, hd1, hd2⟩ := h1
  obtain ⟨hy1b, hm1b, hm2b, hd1b, hd2b⟩ := h2
  subst hy
  have hstep : daysBeforeMonth y1 m1 + daysInMonth y1 m1
      ≤ daysBeforeMonth y1 m2 := by
    rw [← daysBeforeMonth_succ y1 m1 hm1 hm2]
    exact daysBeforeMonth_mono y1 (m1 + 1) m2 (by omega) (by omega) (by omega)
  unfold toOrdinal
  dsimp only
  omega

lemma toOrdinal_inj (d1 d2 : Date) (h1 : ValidDate d1) (h2 : ValidDate d2)
    (h : toOrdinal d1 = toOrdinal d2) : d1 = d2 := by
  rcases Nat.lt_trichotomy d1.year d2.year with hy | hy | hy
  · exact absurd h (by have := ord_lt_of_year_lt d1 d2 h1 h2 hy; omega)
  · rcases Nat.lt_trichotomy d1.month d2.month with hm | hm | hm
    · exact absurd h (by have := ord_lt_of_month_lt d1 d2 h1 h2 hy hm; omega)
    · have hd : d1.day = d2.day := by
        unfold toOrdinal at h
        rw [hy, hm] at h
        omega
      cases d1; cases d2
      simp_all
    · exact absurd h (by have := ord_lt_of_month_lt d2 d1 h2 h1 hy.symm hm; omega)
  · exact absurd h (by have := ord_lt_of_year_lt d2 d1 h2 h1 hy; omega)

/- Model of get_date_range (src/scraper.py lines 588 to 600). -/

/-- Splitting a character list at every slash, as the strptime format
DD/MM/YYYY does with its literal separators. -/
def splitOnSlash : Str → List Str
  | [] => [[]]
  | c :: t =>
    if c = '/' then [] :: splitOnSlash t
    else
      match splitOnSlash t with
      | [] => [[c]]
      | h :: r => (c :: h) :: r

/-- Decimal value of a digit string. -/
def digitsVal (s : Str) : Nat :=
  s.foldl (fun a c => a * 10 + (c.toNat - 48)) 0

/-- A field of one or more decimal digits. -/
def allDigits (s : Str) : Bool := !s.isEmpty && s.all digitChar

/-- Model of datetime.strptime with format DD/MM/YYYY: the day and month
fields are one or two digits with values in [1,31] and [1,12], the year
field is exactly four digits, and the resulting date must be accepted by
the datetime constructor (year at least 1, day in range for the month).
Returns none when strptime or the constructor would raise ValueError. -/
def strptimeDMY (s : Str) : Option {d : Date // ValidDate d} :=
  match splitOnSlash s with
  | [ds, ms, ys] =>
    if allDigits ds && allDigits ms && allDigits ys then
      let dv := digitsVal ds
      let mv := digitsVal ms
      let yv := digitsVal ys
      if h : ds.length ≤ 2 ∧ ms.length ≤ 2 ∧ ys.length = 4 ∧ 1 ≤ dv ∧ dv ≤ 31
          ∧ 1 ≤ mv ∧ mv ≤ 12 ∧ ValidDate ⟨yv, mv, dv⟩ then
        some ⟨⟨yv, mv, dv⟩, h.2.2.2.2.2.2.2⟩
      else none
    else none
  | _ => none

/-- Decimal digits of a natural number. -/
def natDigits (n : Nat) : Str := (Nat.repr n).data

/-- Zero padding to width two, as %d and %m format. -/
def pad2 (n : Nat) : Str := if n < 10 then '0' :: natDigits n else natDigits n

/-- Zero padding to width four, as %Y formats a year. -/
def pad4 (n : Nat) : Str :=
  if n < 10 then '0' :: '0' :: '0' :: natDigits n
  else if n < 100 then '0' :: '0' :: natDigits n
  else if n < 1000 then '0' :: natDigits n
  else natDigits n

/-- Model of strftime with format %d-%m-%Y. -/
def strftimeDMY (d : Date) : Str :=
  pad2 d.day ++ ['-'] ++ pad2 d.month ++ ['-'] ++ pad4 d.year

/-- The while loop of get_date_range in range mode: now is the pair of
the current date and the seconds elapsed in that day (datetime.now has a
time component, the loop variable is at midnight); the loop appends the
formatted current date and advances by one day while current is not
after now. Comparison of datetime values is comparison of ordinals, at
second resolution. -/
def rangeLoop (now : Date × Nat) (cur : {d : Date // ValidDate d}) : List Str :=
  if toOrdinal cur.1 * 86400 ≤ toOrdinal now.1 * 86400 + now.2 then
    strftimeDMY cur.1 :: rangeLoop now ⟨nextDay cur.1, valid_nextDay cur.1 cur.2⟩
  else []
termination_by toOrdinal now.1 + now.2 / 86400 + 1 - toOrdinal cur.1
decreasing_by
  rename_i h
  show toOrdinal now.1 + now.2 / 86400 + 1 - toOrdinal (nextDay cur.1)
      < toOrdinal now.1 + now.2 / 86400 + 1 - toOrdinal cur.1
  rw [ord_nextDay cur.1 cur.2]
  have hb : toOrdinal cur.1 ≤ toOrdinal now.1 + now.2 / 86400 := by
    have h2 : toOrdinal cur.1 * 86400 / 86400
        ≤ (toOrdinal now.1 * 86400 + now.2) / 86400 := Nat.div_le_div_right h
    rw [Nat.mul_div_cancel _ (by norm_num)] at h2
    rw [Nat.add_comm, Nat.add_mul_div_right _ _ (by norm_num : 0 < 86400)] at h2
    omega
  omega

/-- Model of get_date_range(start_date_str, mode): parse the start date
with strptime (none models the ValueError raise); in mode single return
the one element list with the date reformatted with %d-%m-%Y; otherwise
run the while loop up to datetime.now(), given here as the pair of the
current date and the seconds elapsed today. -/
def get_date_range (startStr : Str) (mode : Str) (now : Date × Nat) :
    Option (List Str) :=
  match strptimeDMY startStr with
  | none => none
  | some d =>
    if mode = "single".data then some [strftimeDMY d.1]
    else some (rangeLoop now d)

lemma rangeLoop_spec (today : Date) (secs : Nat) (hvt : ValidDate today)
    (hs : secs < 86400) :
    ∀ (n : Nat) (cur : {d : Date // ValidDate d}),
      toOrdinal today = toOrdinal cur.1 + n →
      ∃ ds : List Date,
        rangeLoop (today, secs) cur = ds.map strftimeDMY ∧
        ds.head? = some cur.1 ∧ ds.getLast? = some today ∧
        List.Chain' (fun a b => b = nextDay a) ds ∧
        ds.length = n + 1 := by
  intro n
  induction n with
  | zero =>
    intro cur heq
    have hcur : cur.1 = today := toOrdinal_inj cur.1 today cur.2 hvt (by omega)
    have hpos : toOrdinal cur.1 * 86400 ≤ toOrdinal today * 86400 + secs := by omega
    have hneg : ¬ toOrdinal (nextDay cur.1) * 86400
        ≤ toOrdinal today * 86400 + secs := by
      rw [ord_nextDay cur.1 cur.2]
      omega
    refine ⟨[today], ?_, by simp [hcur], by simp, by simp, by simp⟩
    rw [rangeLoop, if_pos hpos, rangeLoop]
    dsimp only
    rw [if_neg hneg, hcur]
    simp
  | succ n ih =>
    intro cur heq
    have hnextv : ValidDate (nextDay cur.1) := valid_nextDay cur.1 cur.2
    have hordnext : toOrdinal (nextDay cur.1) = toOrdinal cur.1 + 1 :=
      ord_nextDay cur.1 cur.2
    obtain ⟨ds, hloop, hhead, hlast, hchain, hlen⟩ :=
      ih ⟨nextDay cur.1, hnextv⟩ (by dsimp only; omega)
    have hpos : toOrdinal cur.1 * 86400 ≤ toOrdinal today * 86400 + secs := by
      have : toOrdinal cur.1 ≤ toOrdinal today := by omega
      omega
    match ds, hloop, hhead, hlast, hchain, hlen with
    | b :: t, hloop, hhead, hlast, hchain, hlen =>
      refine ⟨cur.1 :: b :: t, ?_, by simp, ?_, ?_, by simpa using hlen⟩
      · rw [rangeLoop, if_pos hpos]
        simp only [List.map]
        rw [hloop]
        simp
      · rw [List.getLast?_cons_cons]
        exact hlast
      · rw [List.chain'_cons]
        have hb : b = nextDay cur.1 := by simpa using hhead
        exact ⟨hb, hchain⟩

/-- C1: for every start date not after today, get_date_range in range
mode returns the consecutive calendar dates from the start date to
today inclusive in ascending order (a chain of nextDay steps beginning
at the start date and ending at today), each formatted with %d-%m-%Y;
in single mode it returns the one element list with the given date
reformatted with %d-%m-%Y. -/
theorem get_date_range_correct (s : Str) (d : {x : Date // ValidDate x})
    (today : Date) (secs : Nat)
    (hp : strptimeDMY s = some d) (hvt : ValidDate today) (hs : secs < 86400)
    (hle : toOrdinal d.1 ≤ toOrdinal today) :
    (∃ ds : List Date,
       get_date_range s "range".data (today, secs) = some (ds.map strftimeDMY) ∧
       ds.head? = some d.1 ∧ ds.getLast? = some today ∧
       List.Chain' (fun a b => b = nextDay a) ds ∧
       ds.length = toOrdinal today + 1 - toOrdinal d.1) ∧
    get_date_range s "single".data (today, secs) = some [strftimeDMY d.1] := by
  constructor
  · obtain ⟨ds, h1, h2, h3, h4, h5⟩ :=
      rangeLoop_spec today secs hvt hs (toOrdinal today - toOrdinal d.1) d (by omega)
    refine ⟨ds, ?_, h2, h3, h4, by omega⟩
    simp only [get_date_range, hp]
    rw [if_neg (by decide)]
    rw [h1]
  · simp [get_date_range, hp]

/-- Witness for get_date_range_correct: start 28/02/0004 (a leap year),
today 0004-03-01 at midnight. -/
theorem get_date_range_correct_witness :
    strptimeDMY "28/02/0004".data = some ⟨⟨4, 2, 28⟩, by decide⟩ ∧
    ValidDate ⟨4, 3, 1⟩ ∧ (0 : Nat) < 86400 ∧
    toOrdinal ⟨4, 2, 28⟩ ≤ toOrdinal ⟨4, 3, 1⟩ ∧
    ((∃ ds : List Date,
        get_date_range "28/02/0004".data "range".data (⟨4, 3, 1⟩, 0)
          = some (ds.map strftimeDMY) ∧
        ds.head? = some ⟨4, 2, 28⟩ ∧ ds.getLast? = some ⟨4, 3, 1⟩ ∧
        List.Chain' (fun a b => b = nextDay a) ds ∧
        ds.length = toOrdinal ⟨4, 3, 1⟩ + 1 - toOrdinal ⟨4, 2, 28⟩) ∧
      get_date_range "28/02/0004".data "single".data (⟨4, 3, 1⟩, 0)
        = some [strftimeDMY ⟨4, 2, 28⟩]) :=
  ⟨by decide, by decide, by decide, by decide,
    get_date_range_correct "28/02/0004".data ⟨⟨4, 2, 28⟩, by decide⟩
      ⟨4, 3, 1⟩ 0 (by decide) (by decide) (by decide) (by decide)⟩

/- Deterministic matchers for the regular expressions of the source.
Each matcher tries the pattern at the start of its input and returns the
matched text (and for the scanning combinators the remaining input);
re.search semantics is the leftmost position at which the matcher
succeeds.  Every pattern used by the source is deterministic in the
sense that greedy matching with these character classes never requires
backtracking: each quantified class is disjoint from what the pattern
requires next. -/

/-- Exactly n characters satisfying p, as a class with a counted
quantifier; returns the matched text and the rest. -/
def takeExact (p : Char → Bool) : Nat → Str → Option (Str × Str)
  | 0, s => some ([], s)
  | _ + 1, [] => none
  | n + 1, c :: t =>
    if p c then (takeExact p n t).map (fun x => (c :: x.1, x.2)) else none

/-- One or more characters satisfying p, greedily (the class-plus
quantifier). -/
def takePlus (p : Char → Bool) (s : Str) : Option (Str × Str) :=
  match s.takeWhile p, s.dropWhile p with
  | [], _ => none
  | a :: b, r => some (a :: b, r)

/-- Zero or more characters satisfying p, greedily (the class-star
quantifier). -/
def takeStar (p : Char → Bool) (s : Str) : Str × Str :=
  (s.takeWhile p, s.dropWhile p)

/-- One literal character. -/
def takeChar (c : Char) : Str → Option (Str × Str)
  | [] => none
  | x :: t => if x = c then some ([x], t) else none

/-- A literal string under re.IGNORECASE; the matched text keeps the
case of the input. -/
def takeLitCi : Str → Str → Option (Str × Str)
  | [], s => some ([], s)
  | _ :: _, [] => none
  | l :: lt, c :: ct =>
    if c.toLower = l.toLower then
      (takeLitCi lt ct).map (fun x => (c :: x.1, x.2))
    else none

/-- re.search: scan left to right and return the first position where
the matcher succeeds. -/
def searchM {α : Type} (m : Str → Option α) : Str → Option α
  | [] => m []
  | c :: t =>
    match m (c :: t) with
    | some a => some a
    | none => searchM m t

/-- re.findall with fuel (every matcher used consumes at least one
character on success, so fuel equal to the length plus one suffices):
on a match continue after its end, otherwise advance one position. -/
def findAllAux {α : Type} (m : Str → Option (α × Str)) : Nat → Str → List α
  | 0, _ => []
  | _ + 1, [] =>
    match m [] with
    | some (a, _) => [a]
    | none => []
  | f + 1, c :: t =>
    match m (c :: t) with
    | some (a, rest) => a :: findAllAux m f rest
    | none => findAllAux m f t

/-- re.findall over a string. -/
def findAll {α : Type} (m : Str → Option (α × Str)) (s : Str) : List α :=
  findAllAux m (s.length + 1) s

/- Model of parse_hearing_date (src/scraper.py lines 91 to 109). -/

/-- Pattern 1: three word characters, whitespace, DD-MM-YYYY, optional
whitespace, and a parenthesized suffix of one or more characters other
than a closing parenthesis. -/
def hearingP1 (s : Str) : Option Str := do
  let (a, r) ← takeExact wordChar 3 s
  let (b, r) ← takePlus wsChar r
  let (c, r) ← takeExact digitChar 2 r
  let (d, r) ← takeChar '-' r
  let (e, r) ← takeExact digitChar 2 r
  let (f, r) ← takeChar '-' r
  let (g, r) ← takeExact digitChar 4 r
  let (h, r) := takeStar wsChar r
  let (i, r) ← takeChar '(' r
  let (j, r) ← takePlus (fun c => c ≠ ')') r
  let (k, _) ← takeChar ')' r
  pure (a ++ b ++ c ++ d ++ e ++ f ++ g ++ h ++ i ++ j ++ k)

/-- Pattern 2: DD-MM-YYYY, optional whitespace, parenthesized suffix. -/
def hearingP2 (s : Str) : Option Str := do
  let (c, r) ← takeExact digitChar 2 s
  let (d, r) ← takeChar '-' r
  let (e, r) ← takeExact digitChar 2 r
  let (f, r) ← takeChar '-' r
  let (g, r) ← takeExact digitChar 4 r
  let (h, r) := takeStar wsChar r
  let (i, r) ← takeChar '(' r
  let (j, r) ← takePlus (fun c => c ≠ ')') r
  let (k, _) ← takeChar ')' r
  pure (c ++ d ++ e ++ f ++ g ++ h ++ i ++ j ++ k)

/-- Pattern 3: three word characters, whitespace, DD/MM/YYYY. -/
def hearingP3 (s : Str) : Option Str := do
  let (a, r) ← takeExact wordChar 3 s
  let (b, r) ← takePlus wsChar r
  let (c, r) ← takeExact digitChar 2 r
  let (d, r) ← takeChar '/' r
  let (e, r) ← takeExact digitChar 2 r
  let (f, r) ← takeChar '/' r
  let (g, _) ← takeExact digitChar 4 r
  pure (a ++ b ++ c ++ d ++ e ++ f ++ g)

/-- Pattern 4: DD/MM/YYYY. -/
def hearingP4 (s : Str) : Option Str := do
  let (c, r) ← takeExact digitChar 2 s
  let (d, r) ← takeChar '/' r
  let (e, r) ← takeExact digitChar 2 r
  let (f, r) ← takeChar '/' r
  let (g, _) ← takeExact digitChar 4 r
  pure (c ++ d ++ e ++ f ++ g)

/-- Pattern 5: DD-MM-YYYY. -/
def hearingP5 (s : Str) : Option Str := do
  let (c, r) ← takeExact digitChar 2 s
  let (d, r) ← takeChar '-' r
  let (e, r) ← takeExact digitChar 2 r
  let (f, r) ← takeChar '-' r
  let (g, _) ← takeExact digitChar 4 r
  pure (c ++ d ++ e ++ f ++ g)

/-- The pattern list of parse_hearing_date, in source order. -/
def hearingPatterns : List (Str → Option Str) :=
  [hearingP1, hearingP2, hearingP3, hearingP4, hearingP5]

/-- The for loop of parse_hearing_date: first pattern with a search hit
wins. -/
def firstHitOf : List (Str → Option Str) → Str → Option Str
  | [], _ => none
  | m :: rest, text =>
    match searchM m text with
    | some r => some r
    | none => firstHitOf rest text

/-- Model of parse_hearing_date: try the five patterns in order, return
the stripped first match, and N/A when none matches. -/
def parse_hearing_date (text : Str) : Str :=
  match firstHitOf hearingPatterns text with
  | some m => stripStr m
  | none => "N/A".data

/-- C7: parse_hearing_date returns the stripped first substring matched
by the first of its five date patterns (in source order) that matches
anywhere in the string, and N/A when no pattern matches. -/
theorem parse_hearing_date_priority (text : Str) :
    (∀ m, searchM hearingP1 text = some m →
      parse_hearing_date text = stripStr m) ∧
    (searchM hearingP1 text = none →
      ∀ m, searchM hearingP2 text = some m →
        parse_hearing_date text = stripStr m) ∧
    (searchM hearingP1 text = none → searchM hearingP2 text = none →
      ∀ m, searchM hearingP3 text = some m →
        parse_hearing_date text = stripStr m) ∧
    (searchM hearingP1 text = none → searchM hearingP2 text = none →
      searchM hearingP3 text = none →
      ∀ m, searchM hearingP4 text = some m →
        parse_hearing_date text = stripStr m) ∧
    (searchM hearingP1 text = none → searchM hearingP2 text = none →
      searchM hearingP3 text = none → searchM hearingP4 text = none →
      ∀ m, searchM hearingP5 text = some m →
        parse_hearing_date text = stripStr m) ∧
    (searchM hearingP1 text = none → searchM hearingP2 text = none →
      searchM hearingP3 text = none → searchM hearingP4 text = none →
      searchM hearingP5 text = none →
      parse_hearing_date text = "N/A".data) := by
  refine ⟨?_, ?_, ?_, ?_, ?_, ?_⟩
  · intro m h1
    simp [parse_hearing_date, hearingPatterns, firstHitOf, h1]
  · intro h1 m h2
    simp [parse_hearing_date, hearingPatterns, firstHitOf, h1, h2]
  · intro h1 h2 m h3
    simp [parse_hearing_date, hearingPatterns, firstHitOf, h1, h2, h3]
  · intro h1 h2 h3 m h4
    simp [parse_hearing_date, hearingPatterns, firstHitOf, h1, h2, h3, h4]
  · intro h1 h2 h3 h4 m h5
    simp [parse_hearing_date, hearingPatterns, firstHitOf, h1, h2, h3, h4, h5]
  · intro h1 h2 h3 h4 h5
    simp [parse_hearing_date, hearingPatterns, firstHitOf, h1, h2, h3, h4, h5]

/-- Witness for parse_hearing_date_priority: pattern 1 misses, pattern 2
hits on a DD-MM-YYYY date with parenthesized suffix. -/
theorem parse_hearing_date_priority_witness :
    searchM hearingP1 "01-02-2020 (Mon)".data = none ∧
    searchM hearingP2 "01-02-2020 (Mon)".data = some "01-02-2020 (Mon)".data ∧
    parse_hearing_date "01-02-2020 (Mon)".data = stripStr "01-02-2020 (Mon)".data :=
  ⟨by decide, by decide,
    (parse_hearing_date_priority "01-02-2020 (Mon)".data).2.1 (by decide)
      "01-02-2020 (Mon)".data (by decide)⟩

/- Model of parse_bench_names_fast (src/scraper.py lines 111 to 131). -/

/-- The star part of the capture group: zero or more repetitions of
whitespace followed by at least two letters, greedily, with fuel (each
repetition consumes at least two characters). -/
def benchMoreAux : Nat → Str → Str × Str
  | 0, s => ([], s)
  | f + 1, s =>
    match takePlus wsChar s with
    | none => ([], s)
    | some (sp, r1) =>
      match (do
        let (a, r2) ← takeExact alphaChar 1 r1
        let (b, r3) ← takePlus alphaChar r2
        pure (a ++ b, r3) : Option (Str × Str)) with
      | none => ([], s)
      | some (w, r3) =>
        let (rest, r4) := benchMoreAux f r3
        (sp ++ w ++ rest, r4)

/-- The capture group of the bench patterns: a letter, one or more
letters, then further whitespace-separated words of at least two
letters (under re.IGNORECASE the classes for upper and lower case both
accept any letter).  Returns the captured text and the rest. -/
def benchNameGroup (s : Str) : Option (Str × Str) := do
  let (a, r1) ← takeExact alphaChar 1 s
  let (b, r2) ← takePlus alphaChar r1
  let (more, r3) := benchMoreAux r2.length r2
  pure (a ++ b ++ more, r3)

/-- First bench pattern: Hon with optional ourable or apostrophe-ble,
whitespace, optional Mr. or Ms., optional whitespace, Justice,
whitespace, then the capture group; all case-insensitive.  The optional
alternatives are mutually exclusive on their first character with the
required continuation, so greedy matching without backtracking agrees
with the Python engine. -/
def benchP1 (s : Str) : Option (Str × Str) := do
  let (_, r1) ← takeLitCi "hon".data s
  let r2 :=
    match takeLitCi "ourable".data r1 with
    | some x => x.2
    | none =>
      match takeLitCi ('\'' :: "ble".data) r1 with
      | some x => x.2
      | none => r1
  let (_, r3) ← takePlus wsChar r2
  let r4 :=
    match takeLitCi "mr.".data r3 with
    | some x => x.2
    | none =>
      match takeLitCi "ms.".data r3 with
      | some x => x.2
      | none => r3
  let (_, r5) := takeStar wsChar r4
  let (_, r6) ← takeLitCi "justice".data r5
  let (_, r7) ← takePlus wsChar r6
  benchNameGroup r7

/-- Second bench pattern: Justice, whitespace, capture group. -/
def benchP2 (s : Str) : Option (Str × Str) := do
  let (_, r1) ← takeLitCi "justice".data s
  let (_, r2) ← takePlus wsChar r1
  benchNameGroup r2

/-- Loop body of parse_bench_names_fast: keep a stripped captured name
of length above two, prefixed with the honorific, unless already seen. -/
def benchStep (acc : List Str) (mt : Str) : List Str :=
  if 2 < (stripStr mt).length then
    let full := "Honourable Mr. Justice ".data ++ stripStr mt
    if full ∈ acc then acc else acc ++ [full]
  else acc

/-- Model of parse_bench_names_fast: findall for each pattern in order,
fold the filtered and deduplicated names. -/
def parse_bench_names_fast (text : Str) : List Str :=
  let acc1 := (findAll benchP1 text).foldl benchStep []
  (findAll benchP2 text).foldl benchStep acc1

lemma benchStep_fold (ms : List Str) (acc : List Str)
    (h1 : ∀ x ∈ acc,
      ∃ nm : Str, x = "Honourable Mr. Justice ".data ++ nm ∧ 2 < nm.length)
    (h2 : acc.Nodup) :
    (∀ x ∈ ms.foldl benchStep acc,
      ∃ nm : Str, x = "Honourable Mr. Justice ".data ++ nm ∧ 2 < nm.length) ∧
    (ms.foldl benchStep acc).Nodup := by
  induction ms generalizing acc with
  | nil => exact ⟨h1, h2⟩
  | cons m rest ih =>
    simp only [List.foldl_cons]
    apply ih
    · intro x hx
      unfold benchStep at hx
      dsimp only at hx
      split at hx
      · rename_i hlen
        split at hx
        · exact h1 x hx
        · rcases List.mem_append.mp hx with h | h
          · exact h1 x h
          · simp only [List.mem_singleton] at h
            subst h
            exact ⟨stripStr m, rfl, hlen⟩
      · exact h1 x hx
    · unfold benchStep
      dsimp only
      split
      · split
        · exact h2
        · rename_i hnotin
          refine List.Nodup.append h2 (List.nodup_singleton _) ?_
          intro a ha hmem
          simp only [List.mem_singleton] at hmem
          subst hmem
          exact hnotin ha
      · exact h2

/-- C9: every name parse_bench_names_fast returns carries the honorific
prefix, the stripped captured part has length above two, the list has
no duplicates, and the list is empty when neither pattern matches. -/
theorem bench_names_invariant (text : Str) :
    (∀ x ∈ parse_bench_names_fast text,
      ∃ nm : Str, x = "Honourable Mr. Justice ".data ++ nm ∧ 2 < nm.length) ∧
    (parse_bench_names_fast text).Nodup ∧
    (findAll benchP1 text = [] → findAll benchP2 text = [] →
      parse_bench_names_fast text = []) := by
  have h1 := benchStep_fold (findAll benchP1 text) [] (by simp) (by simp)
  have h2 := benchStep_fold (findAll benchP2 text)
    ((findAll benchP1 text).foldl benchStep []) h1.1 h1.2
  refine ⟨h2.1, h2.2, ?_⟩
  intro e1 e2
  simp [parse_bench_names_fast, e1, e2]

/-- Witness for bench_names_invariant on a text with no bench pattern. -/
theorem bench_names_invariant_witness :
    findAll benchP1 "hello world".data = [] ∧
    findAll benchP2 "hello world".data = [] ∧
    parse_bench_names_fast "hello world".data = [] :=
  ⟨by decide, by decide,
    (bench_names_invariant "hello world".data).2.2 (by decide) (by decide)⟩

/- The case record schema shared by both scrapers. -/

structure AdvocatesRec where
  Petitioner : Str
  Respondent : Str
deriving DecidableEq, Repr

structure DisposalRec where
  Disposed_Status : Str
  Case_Disposal_Date : Str
  Disposal_Bench : List Str
  Consigned_Date : Str
deriving DecidableEq, Repr

structure FIRRec where
  FIR_No : Str
  FIR_Date : Str
  Police_Station : Str
  Under_Section : Str
  Incident : Str
  Accused : Str
deriving DecidableEq, Repr

structure DetailsRec where
  Case_No : Str
  Case_Status : Str
  Hearing_Date : Str
  Case_Stage : Str
  Tentative_Date : Str
  Short_Order : Str
  Before_Bench : List Str
  Case_Title : Str
  Advocates : AdvocatesRec
  Case_Description : Str
  Disposal_Information : DisposalRec
  FIR_Information : FIRRec
deriving DecidableEq, Repr

structure OrderRec where
  Sr : Nat
  Hearing_Date : Str
  Bench : List Str
  List_Type : Str
  Case_Stage : Str
  Short_Order : Str
  Disposal_Date : Str
  Order_File : Str
deriving DecidableEq, Repr

structure CommentRec where
  Compliance_Date : Str
  Case_No : Str
  Case_Title : Str
  Doc_Type : Str
  Parties : Str
  Description : Str
  View_File : Str
deriving DecidableEq, Repr

structure CMRec where
  Sr : Nat
  CM : Str
  Institution_Date : Str
  Disposal_Date : Str
  Order_Passed : Str
  Description : Str
  Status : Str
deriving DecidableEq, Repr

structure CaseData where
  Sr : Nat
  Institution_Date : Str
  Case_No : Str
  Case_Title : Str
  Bench : List Str
  Hearing_Date : Str
  Case_Category : Str
  Status : Str
  Orders : List OrderRec
  Comments : List CommentRec
  CMs : List CMRec
  Details : DetailsRec
deriving DecidableEq, Repr

/-- The keys of the case_data dict literal, in source order (identical
in extract_table_row_data_fast and extract_case_details). -/
def caseRecordKeys : List Str :=
  ["Sr".data, "Institution_Date".data, "Case_No".data, "Case_Title".data,
   "Bench".data, "Hearing_Date".data, "Case_Category".data, "Status".data,
   "Orders".data, "Comments".data, "CMs".data, "Details".data]

/-- The keys the specification names for a case record. -/
def claimedKeys : List Str :=
  ["Sr".data, "Case_No".data, "Case_Title".data, "Bench".data,
   "Hearing_Date".data, "Status".data, "Orders".data, "Comments".data,
   "CMs".data, "Details".data]

/-- The all-defaults Details value of the dict literal. -/
def initDetails : DetailsRec :=
  { Case_No := "N/A".data
    Case_Status := "N/A".data
    Hearing_Date := "N/A".data
    Case_Stage := "N/A".data
    Tentative_Date := "N/A".data
    Short_Order := "N/A".data
    Before_Bench := []
    Case_Title := "N/A".data
    Advocates := { Petitioner := "N/A".data, Respondent := "N/A".data }
    Case_Description := "N/A".data
    Disposal_Information :=
      { Disposed_Status := "N/A".data
        Case_Disposal_Date := "N/A".data
        Disposal_Bench := []
        Consigned_Date := "N/A".data }
    FIR_Information :=
      { FIR_No := "N/A".data
        FIR_Date := "N/A".data
        Police_Station := "N/A".data
        Under_Section := "N/A".data
        Incident := "N/A".data
        Accused := "N/A".data } }

/-- The case_data dict literal of extract_table_row_data_fast: all
placeholders, with the given serial number and institution date. -/
def initCaseFast (sr : Nat) (date : Str) : CaseData :=
  { Sr := sr
    Institution_Date := date
    Case_No := "N/A".data
    Case_Title := "N/A".data
    Bench := []
    Hearing_Date := "N/A".data
    Case_Category := "N/A".data
    Status := "N/A".data
    Orders := []
    Comments := []
    CMs := []
    Details := initDetails }

/- Model of extract_clean_text (src/scraper.py lines 83 to 89). -/

/-- A web element of the fast scraper: the textContent attribute lookup
and the text property may raise (Except.error) and the attribute may be
absent (none); hasLink records whether find_elements by tag a inside
the element is nonempty. -/
structure Element where
  textContent : Except Unit (Option Str)
  text : Except Unit Str
  hasLink : Bool

/-- The tail of extract_clean_text: strip, and if nonempty collapse
whitespace runs, else N/A. -/
def cleanTail (txt : Str) : Str :=
  if stripStr txt ≠ [] then collapseWs (stripStr txt) else "N/A".data

/-- Model of extract_clean_text: the attribute lookup chained with
Python or-fallbacks (None and the empty string are falsy), and N/A when
either access raises or the text is effectively empty. -/
def extract_clean_text (e : Element) : Str :=
  match e.textContent with
  | .error _ => "N/A".data
  | .ok tc =>
    let tcv := tc.getD []
    if tcv ≠ [] then cleanTail tcv
    else
      match e.text with
      | .error _ => "N/A".data
      | .ok t => cleanTail t

/- Model of extract_table_row_data_fast (src/scraper.py lines 198 to
358).  The advocate popup interaction of extract_advocate_info_fast is
abstracted by a per-row oracle holding the counsel strings that its
page-source regex scan would accept; no claim depends on these. -/

/-- A table row of the fast scraper: its td elements and the advocate
oracle used when a case link is clicked. -/
structure RowM where
  cells : List Element
  advPet : Option Str
  advResp : Option Str

/-- One alternative of case_no_pattern: W.P with optional dot,
whitespace, digits, slash, four digits, then anything up to a comma. -/
def caseNoAlt1 (s : Str) : Option (Str × Str) := do
  let (a, r) ← takeLitCi "w.p".data s
  let (b, r) :=
    match takeChar '.' r with
    | some x => x
    | none => ([], r)
  let (c, r) := takeStar wsChar r
  let (d, r) ← takePlus digitChar r
  let (e, r) ← takeChar '/' r
  let (f, r) ← takeExact digitChar 4 r
  let (g, r) := takeStar (fun ch => ch ≠ ',') r
  pure (a ++ b ++ c ++ d ++ e ++ f ++ g, r)

/-- Second alternative: Crl, optional dot, whitespace, letters,
optional dot, whitespace, digits, slash, four digits, up to a comma. -/
def caseNoAlt2 (s : Str) : Option (Str × Str) := do
  let (a, r) ← takeLitCi "crl".data s
  let (b, r) :=
    match takeChar '.' r with
    | some x => x
    | none => ([], r)
  let (c, r) := takeStar wsChar r
  let (d, r) := takeStar alphaChar r
  let (e, r) :=
    match takeChar '.' r with
    | some x => x
    | none => ([], r)
  let (f, r) := takeStar wsChar r
  let (g, r) ← takePlus digitChar r
  let (h, r) ← takeChar '/' r
  let (i, r) ← takeExact digitChar 4 r
  let (j, r) := takeStar (fun ch => ch ≠ ',') r
  pure (a ++ b ++ c ++ d ++ e ++ f ++ g ++ h ++ i ++ j, r)

/-- Third alternative: Civil, whitespace, letters, optional dot,
whitespace, digits, slash, four digits, up to a comma. -/
def caseNoAlt3 (s : Str) : Option (Str × Str) := do
  let (a, r) ← takeLitCi "civil".data s
  let (c, r) := takeStar wsChar r
  let (d, r) := takeStar alphaChar r
  let (e, r) :=
    match takeChar '.' r with
    | some x => x
    | none => ([], r)
  let (f, r) := takeStar wsChar r
  let (g, r) ← takePlus digitChar r
  let (h, r) ← takeChar '/' r
  let (i, r) ← takeExact digitChar 4 r
  let (j, r) := takeStar (fun ch => ch ≠ ',') r
  pure (a ++ c ++ d ++ e ++ f ++ g ++ h ++ i ++ j, r)

/-- Fourth alternative: one or more letters, optional dot, whitespace,
digits, slash, four digits, up to a comma. -/
def caseNoAlt4 (s : Str) : Option (Str × Str) := do
  let (a, r) ← takePlus alphaChar s
  let (b, r) :=
    match takeChar '.' r with
    | some x => x
    | none => ([], r)
  let (c, r) := takeStar wsChar r
  let (d, r) ← takePlus digitChar r
  let (e, r) ← takeChar '/' r
  let (f, r) ← takeExact digitChar 4 r
  let (g, r) := takeStar (fun ch => ch ≠ ',') r
  pure (a ++ b ++ c ++ d ++ e ++ f ++ g, r)

/-- The alternation of case_no_pattern, in source priority order. -/
def caseNoMatch (s : Str) : Option (Str × Str) :=
  match caseNoAlt1 s with
  | some x => some x
  | none =>
    match caseNoAlt2 s with
    | some x => some x
    | none =>
      match caseNoAlt3 s with
      | some x => some x
      | none => caseNoAlt4 s

/-- re.search for case_no_pattern, returning group 1 (the whole
alternation). -/
def caseNoSearch (s : Str) : Option Str :=
  searchM (fun t => (caseNoMatch t).map (fun x => x.1)) s

/-- re.search for title_vs_pattern, as a hit test: the six alternatives
collapse under IGNORECASE to three case-insensitive substrings (the
dash-separated form contains the plain form, kept for fidelity). -/
def titleVsHit (s : Str) : Bool :=
  containsCi " vs ".data s || containsCi " v/s ".data s ||
    containsCi " - vs - ".data s

/-- First keyword of a list matching at the current position under
IGNORECASE, returning the matched text in input case. -/
def tryKeywords : List Str → Str → Option Str
  | [], _ => none
  | k :: ks, t =>
    match takeLitCi k t with
    | some x => some x.1
    | none => tryKeywords ks t

/-- re.search for category_pattern. -/
def categorySearch (s : Str) : Option Str :=
  searchM (tryKeywords ["notice".data, "regular".data, "urgent".data,
    "misc".data, "supplimentry".data]) s

/-- re.search for status_pattern. -/
def statusSearch (s : Str) : Option Str :=
  searchM (tryKeywords ["decided".data, "pending".data, "disposed".data,
    "fixed".data]) s

/-- The all_text the fast extractor searches: cell texts joined by
a pipe with spaces. -/
def allTextOf (cellTexts : List Str) : Str :=
  List.intercalate " | ".data cellTexts

/-- The title loop of extract_table_row_data_fast: walk the cells in
order; at the first cell whose text contains a vs separator stop with
that text as title; before that remember whether some cell whose text
matches case_no_pattern has a link. -/
def titleLinkScan : List (Element × Str) → Bool → Option Str × Bool
  | [], link => (none, link)
  | (c, t) :: rest, link =>
    if titleVsHit t then (some t, link)
    else
      titleLinkScan rest
        (if (caseNoSearch t).isSome && c.hasLink then true else link)

/-- The cell texts of a row, pre-extracted at once as in the source. -/
def rowCellTexts (row : RowM) : List Str := row.cells.map extract_clean_text

/-- The combined search text of a row. -/
def rowAllText (row : RowM) : Str := allTextOf (rowCellTexts row)

/-- The title and case-link result of the cell loop for a row. -/
def rowTitleScan (row : RowM) : Option Str × Bool :=
  titleLinkScan (row.cells.zip (rowCellTexts row)) false

/-- Case-number extraction step of extract_table_row_data_fast. -/
def caseNoStage (a : Str) (cd : CaseData) : CaseData :=
  match caseNoSearch a with
  | some m => { cd with Case_No := stripStr m, Details.Case_No := stripStr m }
  | none => cd

/-- Title assignment step. -/
def titleStage (t : Option Str) (cd : CaseData) : CaseData :=
  match t with
  | some ti => { cd with Case_Title := ti, Details.Case_Title := ti }
  | none => cd

/-- Advocate step: when a case link was found, extract_advocate_info_fast
fills the Details advocates from the popup page; the oracle fields hold
the counsel strings its regex scan would accept, none meaning no valid
match (the record is then left unchanged). -/
def advStage (row : RowM) (found : Bool) (cd : CaseData) : CaseData :=
  if found then
    { cd with Details.Advocates :=
        { Petitioner :=
            match row.advPet with
            | some p => p
            | none => cd.Details.Advocates.Petitioner
          Respondent :=
            match row.advResp with
            | some p => p
            | none => cd.Details.Advocates.Respondent } }
  else cd

/-- Bench extraction step. -/
def benchNamesStage (a : Str) (cd : CaseData) : CaseData :=
  if parse_bench_names_fast a ≠ [] then
    { cd with
      Bench := parse_bench_names_fast a,
      Details.Before_Bench := parse_bench_names_fast a }
  else cd

/-- Hearing-date extraction step. -/
def hearingStage (a : Str) (cd : CaseData) : CaseData :=
  if parse_hearing_date a ≠ "N/A".data then
    { cd with
      Hearing_Date := parse_hearing_date a,
      Details.Hearing_Date := parse_hearing_date a }
  else cd

/-- Category extraction step. -/
def categoryStage (a : Str) (cd : CaseData) : CaseData :=
  match categorySearch a with
  | some m =>
    { cd with
      Case_Category := upperStr m ++ " CASES".data,
      Details.Case_Stage := upperStr m }
  | none => cd

/-- Status extraction step. -/
def statusStage (a : Str) (cd : CaseData) : CaseData :=
  match statusSearch a with
  | some m =>
    { cd with Status := titleStr m, Details.Case_Status := titleStr m }
  | none => cd

/-- Default Orders, Comments and CMs, set unconditionally before the
record is returned. -/
def ordersStage (cd : CaseData) : CaseData :=
  { cd with
    Orders := [{ Sr := 1
                 Hearing_Date := cd.Hearing_Date
                 Bench := cd.Bench
                 List_Type := "N/A".data
                 Case_Stage := cd.Case_Category
                 Short_Order :=
                   if cd.Status ≠ "N/A".data then cd.Status else "N/A".data
                 Disposal_Date :=
                   if cd.Status = "Pending".data then "N/A".data
                   else cd.Hearing_Date
                 Order_File := "N/A".data }]
    Comments := [{ Compliance_Date := "N/A".data
                   Case_No := cd.Case_No
                   Case_Title := cd.Case_Title
                   Doc_Type := "N/A".data
                   Parties := cd.Case_Title
                   Description := "No comments available".data
                   View_File := "N/A".data }]
    CMs := [{ Sr := 1
              CM := "N/A".data
              Institution_Date := "N/A".data
              Disposal_Date := "N/A".data
              Order_Passed := "N/A".data
              Description := "No CMs available".data
              Status := "N/A".data }] }

/-- Disposal information update when the status reads decided or
disposed. -/
def disposalStage (cd : CaseData) : CaseData :=
  if lowerStr cd.Status = "decided".data ∨ lowerStr cd.Status = "disposed".data then
    { cd with Details.Disposal_Information :=
        { cd.Details.Disposal_Information with
          Disposed_Status := cd.Status ++ " (Disposed Of)".data
          Case_Disposal_Date := cd.Hearing_Date
          Disposal_Bench := cd.Bench } }
  else cd

/-- The record before the defaults and the missing-case-number guard. -/
def rowFields (row : RowM) (sr_number : Nat) (date : Str) : CaseData :=
  statusStage (rowAllText row) (categoryStage (rowAllText row)
    (hearingStage (rowAllText row) (benchNamesStage (rowAllText row)
      (advStage row (rowTitleScan row).2 (titleStage (rowTitleScan row).1
        (caseNoStage (rowAllText row) (initCaseFast sr_number date)))))))

/-- Model of extract_table_row_data_fast: rows with fewer than three
cells yield none; fields are extracted in source order from the joined
cell texts; a record whose case number stayed N/A is dropped (none);
otherwise the default Orders, Comments, CMs and the conditional
disposal update are applied. -/
def extract_table_row_data_fast (row : RowM) (sr_number : Nat) (date : Str) :
    Option CaseData :=
  if row.cells.length < 3 then none
  else
    let cd := rowFields row sr_number date
    if cd.Case_No = "N/A".data then none
    else some (disposalStage (ordersStage cd))

@[simp] lemma caseNoStage_Case_Title (a : Str) (cd : CaseData) :
    (caseNoStage a cd).Case_Title = cd.Case_Title := by
  unfold caseNoStage; split <;> rfl

@[simp] lemma caseNoStage_Bench (a : Str) (cd : CaseData) :
    (caseNoStage a cd).Bench = cd.Bench := by
  unfold caseNoStage; split <;> rfl

@[simp] lemma caseNoStage_Hearing_Date (a : Str) (cd : CaseData) :
    (caseNoStage a cd).Hearing_Date = cd.Hearing_Date := by
  unfold caseNoStage; split <;> rfl

@[simp] lemma caseNoStage_Case_Category (a : Str) (cd : CaseData) :
    (caseNoStage a cd).Case_Category = cd.Case_Category := by
  unfold caseNoStage; split <;> rfl

@[simp] lemma caseNoStage_Status (a : Str) (cd : CaseData) :
    (caseNoStage a cd).Status = cd.Status := by
  unfold caseNoStage; split <;> rfl

lemma caseNoStage_none (a : Str) (cd : CaseData) (h : caseNoSearch a = none) :
    caseNoStage a cd = cd := by
  unfold caseNoStage; rw [h]

lemma caseNoStage_some (a : Str) (cd : CaseData) (m : Str)
    (h : caseNoSearch a = some m) :
    (caseNoStage a cd).Case_No = stripStr m := by
  unfold caseNoStage; rw [h]

@[simp] lemma titleStage_Case_No (t : Option Str) (cd : CaseData) :
    (titleStage t cd).Case_No = cd.Case_No := by
  unfold titleStage; split <;> rfl

@[simp] lemma titleStage_Bench (t : Option Str) (cd : CaseData) :
    (titleStage t cd).Bench = cd.Bench := by
  unfold titleStage; split <;> rfl

@[simp] lemma titleStage_Hearing_Date (t : Option Str) (cd : CaseData) :
    (titleStage t cd).Hearing_Date = cd.Hearing_Date := by
  unfold titleStage; split <;> rfl

@[simp] lemma titleStage_Case_Category (t : Option Str) (cd : CaseData) :
    (titleStage t cd).Case_Category = cd.Case_Category := by
  unfold titleStage; split <;> rfl

@[simp] lemma titleStage_Status (t : Option Str) (cd : CaseData) :
    (titleStage t cd).Status = cd.Status := by
  unfold titleStage; split <;> rfl

lemma titleStage_none (cd : CaseData) : titleStage none cd = cd := rfl

@[simp] lemma advStage_Case_No (row : RowM) (f : Bool) (cd : CaseData) :
    (advStage row f cd).Case_No = cd.Case_No := by
  unfold advStage; split <;> rfl

@[simp] lemma advStage_Case_Title (row : RowM) (f : Bool) (cd : CaseData) :
    (advStage row f cd).Case_Title = cd.Case_Title := by
  unfold advStage; split <;> rfl

@[simp] lemma advStage_Bench (row : RowM) (f : Bool) (cd : CaseData) :
    (advStage row f cd).Bench = cd.Bench := by
  unfold advStage; split <;> rfl

@[simp] lemma advStage_Hearing_Date (row : RowM) (f : Bool) (cd : CaseData) :
    (advStage row f cd).Hearing_Date = cd.Hearing_Date := by
  unfold advStage; split <;> rfl

@[simp] lemma advStage_Case_Category (row : RowM) (f : Bool) (cd : CaseData) :
    (advStage row f cd).Case_Category = cd.Case_Category := by
  unfold advStage; split <;> rfl

@[simp] lemma advStage_Status (row : RowM) (f : Bool) (cd : CaseData) :
    (advStage row f cd).Status = cd.Status := by
  unfold advStage; split <;> rfl

@[simp] lemma benchNamesStage_Case_No (a : Str) (cd : CaseData) :
    (benchNamesStage a cd).Case_No = cd.Case_No := by
  unfold benchNamesStage; split <;> rfl

@[simp] lemma benchNamesStage_Case_Title (a : Str) (cd : CaseData) :
    (benchNamesStage a cd).Case_Title = cd.Case_Title := by
  unfold benchNamesStage; split <;> rfl

@[simp] lemma benchNamesStage_Hearing_Date (a : Str) (cd : CaseData) :
    (benchNamesStage a cd).Hearing_Date = cd.Hearing_Date := by
  unfold benchNamesStage; split <;> rfl

@[simp] lemma benchNamesStage_Case_Category (a : Str) (cd : CaseData) :
    (benchNamesStage a cd).Case_Category = cd.Case_Category := by
  unfold benchNamesStage; split <;> rfl

@[simp] lemma benchNamesStage_Status (a : Str) (cd : CaseData) :
    (benchNamesStage a cd).Status = cd.Status := by
  unfold benchNamesStage; split <;> rfl

lemma benchNamesStage_empty (a : Str) (cd : CaseData)
    (h : parse_bench_names_fast a = []) : benchNamesStage a cd = cd := by
  unfold benchNamesStage; simp [h]

@[simp] lemma hearingStage_Case_No (a : Str) (cd : CaseData) :
    (hearingStage a cd).Case_No = cd.Case_No := by
  unfold hearingStage; split <;> rfl

@[simp] lemma hearingStage_Case_Title (a : Str) (cd : CaseData) :
    (hearingStage a cd).Case_Title = cd.Case_Title := by
  unfold hearingStage; split <;> rfl

@[simp] lemma hearingStage_Bench (a : Str) (cd : CaseData) :
    (hearingStage a cd).Bench = cd.Bench := by
  unfold hearingStage; split <;> rfl

@[simp] lemma hearingStage_Case_Category (a : Str) (cd : CaseData) :
    (hearingStage a cd).Case_Category = cd.Case_Category := by
  unfold hearingStage; split <;> rfl

@[simp] lemma hearingStage_Status (a : Str) (cd : CaseData) :
    (hearingStage a cd).Status = cd.Status := by
  unfold hearingStage; split <;> rfl

lemma hearingStage_na (a : Str) (cd : CaseData)
    (h : parse_hearing_date a = "N/A".data) : hearingStage a cd = cd := by
  unfold hearingStage; simp [h]

@[simp] lemma categoryStage_Case_No (a : Str) (cd : CaseData) :
    (categoryStage a cd).Case_No = cd.Case_No := by
  unfold categoryStage; split <;> rfl

@[simp] lemma categoryStage_Case_Title (a : Str) (cd : CaseData) :
    (categoryStage a cd).Case_Title = cd.Case_Title := by
  unfold categoryStage; split <;> rfl

@[simp] lemma categoryStage_Bench (a : Str) (cd : CaseData) :
    (categoryStage a cd).Bench = cd.Bench := by
  unfold categoryStage; split <;> rfl

@[simp] lemma categoryStage_Hearing_Date (a : Str) (cd : CaseData) :
    (categoryStage a cd).Hearing_Date = cd.Hearing_Date := by
  unfold categoryStage; split <;> rfl

@[simp] lemma categoryStage_Status (a : Str) (cd : CaseData) :
    (categoryStage a cd).Status = cd.Status := by
  unfold categoryStage; split <;> rfl

lemma categoryStage_none (a : Str) (cd : CaseData)
    (h : categorySearch a = none) : categoryStage a cd = cd := by
  unfold categoryStage; rw [h]

@[simp] lemma statusStage_Case_No (a : Str) (cd : CaseData) :
    (statusStage a cd).Case_No = cd.Case_No := by
  unfold statusStage; split <;> rfl

@[simp] lemma statusStage_Case_Title (a : Str) (cd : CaseData) :
    (statusStage a cd).Case_Title = cd.Case_Title := by
  unfold statusStage; split <;> rfl

@[simp] lemma statusStage_Bench (a : Str) (cd : CaseData) :
    (statusStage a cd).Bench = cd.Bench := by
  unfold statusStage; split <;> rfl

@[simp] lemma statusStage_Hearing_Date (a : Str) (cd : CaseData) :
    (statusStage a cd).Hearing_Date = cd.Hearing_Date := by
  unfold statusStage; split <;> rfl

@[simp] lemma statusStage_Case_Category (a : Str) (cd : CaseData) :
    (statusStage a cd).Case_Category = cd.Case_Category := by
  unfold statusStage; split <;> rfl

lemma statusStage_none (a : Str) (cd : CaseData)
    (h : statusSearch a = none) : statusStage a cd = cd := by
  unfold statusStage; rw [h]

@[simp] lemma ordersStage_Case_No (cd : CaseData) :
    (ordersStage cd).Case_No = cd.Case_No := rfl

@[simp] lemma ordersStage_Case_Title (cd : CaseData) :
    (ordersStage cd).Case_Title = cd.Case_Title := rfl

@[simp] lemma ordersStage_Bench (cd : CaseData) :
    (ordersStage cd).Bench = cd.Bench := rfl

@[simp] lemma ordersStage_Hearing_Date (cd : CaseData) :
    (ordersStage cd).Hearing_Date = cd.Hearing_Date := rfl

@[simp] lemma ordersStage_Case_Category (cd : CaseData) :
    (ordersStage cd).Case_Category = cd.Case_Category := rfl

@[simp] lemma ordersStage_Status (cd : CaseData) :
    (ordersStage cd).Status = cd.Status := rfl

@[simp] lemma ordersStage_Orders_length (cd : CaseData) :
    (ordersStage cd).Orders.length = 1 := rfl

@[simp] lemma ordersStage_Comments_length (cd : CaseData) :
    (ordersStage cd).Comments.length = 1 := rfl

@[simp] lemma ordersStage_CMs_length (cd : CaseData) :
    (ordersStage cd).CMs.length = 1 := rfl

@[simp] lemma disposalStage_Case_No (cd : CaseData) :
    (disposalStage cd).Case_No = cd.Case_No := by
  unfold disposalStage; split <;> rfl

@[simp] lemma disposalStage_Case_Title (cd : CaseData) :
    (disposalStage cd).Case_Title = cd.Case_Title := by
  unfold disposalStage; split <;> rfl

@[simp] lemma disposalStage_Bench (cd : CaseData) :
    (disposalStage cd).Bench = cd.Bench := by
  unfold disposalStage; split <;> rfl

@[simp] lemma disposalStage_Hearing_Date (cd : CaseData) :
    (disposalStage cd).Hearing_Date = cd.Hearing_Date := by
  unfold disposalStage; split <;> rfl

@[simp] lemma disposalStage_Case_Category (cd : CaseData) :
    (disposalStage cd).Case_Category = cd.Case_Category := by
  unfold disposalStage; split <;> rfl

@[simp] lemma disposalStage_Status (cd : CaseData) :
    (disposalStage cd).Status = cd.Status := by
  unfold disposalStage; split <;> rfl

@[simp] lemma disposalStage_Orders (cd : CaseData) :
    (disposalStage cd).Orders = cd.Orders := by
  unfold disposalStage; split <;> rfl

@[simp] lemma disposalStage_Comments (cd : CaseData) :
    (disposalStage cd).Comments = cd.Comments := by
  unfold disposalStage; split <;> rfl

@[simp] lemma disposalStage_CMs (cd : CaseData) :
    (disposalStage cd).CMs = cd.CMs := by
  unfold disposalStage; split <;> rfl

/-- A row with three cells none of which contains a case number, used
as a witness input. -/
def wrowNoCase : RowM :=
  ⟨[⟨Except.ok (some "12".data), Except.ok [], false⟩,
    ⟨Except.ok (some "hello".data), Except.ok [], false⟩,
    ⟨Except.ok (some "there".data), Except.ok [], false⟩], none, none⟩

/-- C8: every record extract_table_row_data_fast returns has a case
number different from N/A, and a row in which no case-number pattern
matches is dropped (the function returns none). -/
theorem case_no_guard :
    (∀ row sr date c, extract_table_row_data_fast row sr date = some c →
      c.Case_No ≠ "N/A".data) ∧
    (∀ row sr date, caseNoSearch (rowAllText row) = none →
      extract_table_row_data_fast row sr date = none) := by
  constructor
  · intro row sr date c hc
    unfold extract_table_row_data_fast at hc
    split at hc
    · exact absurd hc (by simp)
    · dsimp only at hc
      split at hc
      · exact absurd hc (by simp)
      · rename_i hno
        injection hc with h
        subst h
        simpa using hno
  · intro row sr date h
    unfold extract_table_row_data_fast
    split
    · rfl
    · dsimp only
      have hna : (rowFields row sr date).Case_No = "N/A".data := by
        unfold rowFields
        simp only [statusStage_Case_No, categoryStage_Case_No,
          hearingStage_Case_No, benchNamesStage_Case_No, advStage_Case_No,
          titleStage_Case_No]
        rw [caseNoStage_none _ _ h]
        rfl
      rw [if_pos hna]

/-- Witness for case_no_guard on a row without a case number. -/
theorem case_no_guard_witness :
    caseNoSearch (rowAllText wrowNoCase) = none ∧
    extract_table_row_data_fast wrowNoCase 1 "01-01-2020".data = none :=
  ⟨by decide, case_no_guard.2 wrowNoCase 1 "01-01-2020".data (by decide)⟩

/- Model of extract_case_details and extract_detailed_info
(src/scraper_testing.py lines 23 to 217).  The table of the case row
and the detail tables opened by the Details button are oracles holding
the cell texts the DOM lookups would return. -/

/-- A detail table: its id attribute and the cell texts of its rows. -/
structure DetailTable where
  id : Str
  rows : List (List Str)

/-- The testing driver oracle: the tables with id containing tbl other
than tblCases that the detail lookup finds. -/
structure DriverT where
  detailTables : List DetailTable

/-- A case row of the testing scraper: its td texts and whether a
Details button was found in it. -/
structure RowT where
  cells : List Str
  hasDetailsButton : Bool

/-- Python replace of slash by dash and removal of spaces, used for the
order and comment file names. -/
def fileSafe (s : Str) : Str :=
  (s.map (fun c => if c = '/' then '-' else c)).filter (fun c => c ≠ ' ')

/-- The cells-length-at-least-5 block of extract_case_details. -/
def fillBasic5 (cells : List Str) (cd : CaseData) : CaseData :=
  let bench :=
    if stripStr (cells.getD 4 []) ≠ [] ∧ stripStr (cells.getD 4 []) ≠ "N/A".data
    then [stripStr (cells.getD 4 [])] else []
  { cd with
    Institution_Date := stripStr (cells.getD 1 []),
    Case_No := stripStr (cells.getD 2 []),
    Case_Title := stripStr (cells.getD 3 []),
    Bench := bench,
    Details.Case_No := stripStr (cells.getD 2 []),
    Details.Case_Title := stripStr (cells.getD 3 []),
    Details.Before_Bench := bench }

/-- The cells-length-at-least-6 block. -/
def fillBasic6 (cells : List Str) (cd : CaseData) : CaseData :=
  if 6 ≤ cells.length then
    { cd with
      Hearing_Date := stripStr (cells.getD 5 []),
      Details.Hearing_Date := stripStr (cells.getD 5 []) }
  else cd

/-- The cells-length-at-least-7 block. -/
def fillBasic7 (cells : List Str) (cd : CaseData) : CaseData :=
  if 7 ≤ cells.length then
    { cd with
      Status := stripStr (cells.getD 6 []),
      Details.Case_Status := stripStr (cells.getD 6 []) }
  else cd

/-- The basic-information extraction of extract_case_details: rows of
fewer than five cells leave the record untouched. -/
def fillBasic (cells : List Str) (cd : CaseData) : CaseData :=
  if 5 ≤ cells.length then fillBasic7 cells (fillBasic6 cells (fillBasic5 cells cd))
  else cd

/-- A detail-table row is kept when it has at least three cells, one of
which strips to a nonempty text. -/
def rowKeep (cells : List Str) : Bool :=
  3 ≤ cells.length && cells.any (fun c => !(stripStr c).isEmpty)

/-- An order entry built from an enumerated history-table row. -/
def orderFromRow (caseNo : Str) (i : Nat) (cells : List Str) : OrderRec :=
  { Sr := i + 1
    Hearing_Date := if 0 < cells.length then stripStr (cells.getD 0 []) else "N/A".data
    Bench :=
      if 1 < cells.length ∧ stripStr (cells.getD 1 []) ≠ []
      then [stripStr (cells.getD 1 [])] else []
    List_Type := if 2 < cells.length then stripStr (cells.getD 2 []) else "N/A".data
    Case_Stage := if 3 < cells.length then stripStr (cells.getD 3 []) else "N/A".data
    Short_Order := if 4 < cells.length then stripStr (cells.getD 4 []) else "N/A".data
    Disposal_Date := if 5 < cells.length then stripStr (cells.getD 5 []) else "N/A".data
    Order_File := "orders/order_".data ++ fileSafe caseNo ++ ".pdf".data }

/-- A comment entry built from a comments-table row. -/
def commentFromRow (caseNo caseTitle : Str) (cells : List Str) : CommentRec :=
  { Compliance_Date := if 0 < cells.length then stripStr (cells.getD 0 []) else "N/A".data
    Case_No := caseNo
    Case_Title := caseTitle
    Doc_Type := if 1 < cells.length then stripStr (cells.getD 1 []) else "N/A".data
    Parties := caseTitle
    Description :=
      if 2 < cells.length then stripStr (cells.getD 2 [])
      else "No comments available".data
    View_File := "comments/comment_".data ++ fileSafe caseNo ++ ".pdf".data }

/-- A CM entry built from an enumerated CM-table row. -/
def cmFromRow (i : Nat) (cells : List Str) : CMRec :=
  { Sr := i + 1
    CM := if 0 < cells.length then stripStr (cells.getD 0 []) else "N/A".data
    Institution_Date := if 1 < cells.length then stripStr (cells.getD 1 []) else "N/A".data
    Disposal_Date := if 2 < cells.length then stripStr (cells.getD 2 []) else "N/A".data
    Order_Passed := if 3 < cells.length then stripStr (cells.getD 3 []) else "N/A".data
    Description :=
      if 4 < cells.length then stripStr (cells.getD 4 [])
      else "No CMs available".data
    Status := if 5 < cells.length then stripStr (cells.getD 5 []) else "N/A".data }

/-- Dispatch of extract_detailed_info on one table: the header row is
skipped, rows are enumerated before filtering (the serial number counts
skipped rows), and the id substring decides the target list. -/
def processDetailTable (cd : CaseData) (tbl : DetailTable) : CaseData :=
  if hasSubstr "Hstry".data tbl.id || hasSubstr "History".data tbl.id then
    { cd with Orders := cd.Orders ++
        (((tbl.rows.drop 1).enum.filter (fun p => rowKeep p.2)).map
          (fun p => orderFromRow cd.Case_No p.1 p.2)) }
  else if hasSubstr "Cmnts".data tbl.id || hasSubstr "Comments".data tbl.id then
    { cd with Comments := cd.Comments ++
        (((tbl.rows.drop 1).filter rowKeep).map
          (commentFromRow cd.Case_No cd.Case_Title)) }
  else if hasSubstr "Cms".data tbl.id || hasSubstr "CM".data tbl.id then
    { cd with CMs := cd.CMs ++
        (((tbl.rows.drop 1).enum.filter (fun p => rowKeep p.2)).map
          (fun p => cmFromRow p.1 p.2)) }
  else cd

/-- The default order entry added when no order was extracted. -/
def defaultOrderT (cd : CaseData) : OrderRec :=
  { Sr := 1
    Hearing_Date := cd.Hearing_Date
    Bench := cd.Bench
    List_Type := "N/A".data
    Case_Stage := "N/A".data
    Short_Order := cd.Status
    Disposal_Date := "N/A".data
    Order_File := "orders/order_".data ++ fileSafe cd.Case_No ++ ".pdf".data }

/-- The default comment entry added when no comment was extracted. -/
def defaultCommentT (cd : CaseData) : CommentRec :=
  { Compliance_Date := "N/A".data
    Case_No := cd.Case_No
    Case_Title := cd.Case_Title
    Doc_Type := "N/A".data
    Parties := cd.Case_Title
    Description := "No comments available".data
    View_File := "comments/comment_".data ++ fileSafe cd.Case_No ++ ".pdf".data }

/-- The default CM entry added when no CM was extracted. -/
def defaultCMT : CMRec :=
  { Sr := 1
    CM := "N/A".data
    Institution_Date := "N/A".data
    Disposal_Date := "N/A".data
    Order_Passed := "N/A".data
    Description := "No CMs available".data
    Status := "N/A".data }

/-- Default order added when the orders list stayed empty. -/
def addDefaultOrders (cd : CaseData) : CaseData :=
  if cd.Orders = [] then { cd with Orders := [defaultOrderT cd] } else cd

/-- Default comment added when the comments list stayed empty. -/
def addDefaultComments (cd : CaseData) : CaseData :=
  if cd.Comments = [] then { cd with Comments := [defaultCommentT cd] } else cd

/-- Default CM added when the CM list stayed empty. -/
def addDefaultCMs (cd : CaseData) : CaseData :=
  if cd.CMs = [] then { cd with CMs := [defaultCMT] } else cd

/-- The if-no-detailed-data-was-found defaults of extract_detailed_info. -/
def detailDefaults (cd : CaseData) : CaseData :=
  addDefaultCMs (addDefaultComments (addDefaultOrders cd))

/-- Model of extract_detailed_info: fold the detail tables, then add
default entries to every list that stayed empty. -/
def extract_detailed_info (drv : DriverT) (cd : CaseData) : CaseData :=
  detailDefaults (drv.detailTables.foldl processDetailTable cd)

/-- Model of extract_case_details: the dict literal of placeholders (the
same literal as in the fast scraper, with institution date N/A), the
basic cell extraction, and, when a Details button is present, the
detailed extraction. -/
def extract_case_details (drv : DriverT) (row : RowT) (sr : Nat) : CaseData :=
  let cd := fillBasic row.cells (initCaseFast sr "N/A".data)
  if row.hasDetailsButton then extract_detailed_info drv cd else cd

/-- The scalar case fields the basic-information claims speak about. -/
def topScalars (cd : CaseData) : Str × Str × List Str × Str × Str :=
  (cd.Case_No, cd.Case_Title, cd.Bench, cd.Hearing_Date, cd.Status)

lemma processDetailTable_scalars (cd : CaseData) (tbl : DetailTable) :
    topScalars (processDetailTable cd tbl) = topScalars cd := by
  unfold processDetailTable
  split
  · rfl
  split
  · rfl
  split
  · rfl
  · rfl

lemma foldl_processDetailTable_scalars (tbls : List DetailTable) :
    ∀ cd : CaseData, topScalars (tbls.foldl processDetailTable cd) = topScalars cd := by
  induction tbls with
  | nil => intro cd; rfl
  | cons t ts ih =>
    intro cd
    simp only [List.foldl_cons]
    rw [ih, processDetailTable_scalars]

lemma addDefaultOrders_scalars (cd : CaseData) :
    topScalars (addDefaultOrders cd) = topScalars cd := by
  unfold addDefaultOrders; split <;> rfl

lemma addDefaultComments_scalars (cd : CaseData) :
    topScalars (addDefaultComments cd) = topScalars cd := by
  unfold addDefaultComments; split <;> rfl

lemma addDefaultCMs_scalars (cd : CaseData) :
    topScalars (addDefaultCMs cd) = topScalars cd := by
  unfold addDefaultCMs; split <;> rfl

lemma extract_detailed_info_scalars (drv : DriverT) (cd : CaseData) :
    topScalars (extract_detailed_info drv cd) = topScalars cd := by
  unfold extract_detailed_info detailDefaults
  rw [addDefaultCMs_scalars, addDefaultComments_scalars, addDefaultOrders_scalars,
    foldl_processDetailTable_scalars]

@[simp] lemma addDefaultOrders_Comments (cd : CaseData) :
    (addDefaultOrders cd).Comments = cd.Comments := by
  unfold addDefaultOrders; split <;> rfl

@[simp] lemma addDefaultOrders_CMs (cd : CaseData) :
    (addDefaultOrders cd).CMs = cd.CMs := by
  unfold addDefaultOrders; split <;> rfl

@[simp] lemma addDefaultComments_Orders (cd : CaseData) :
    (addDefaultComments cd).Orders = cd.Orders := by
  unfold addDefaultComments; split <;> rfl

@[simp] lemma addDefaultComments_CMs (cd : CaseData) :
    (addDefaultComments cd).CMs = cd.CMs := by
  unfold addDefaultComments; split <;> rfl

@[simp] lemma addDefaultCMs_Orders (cd : CaseData) :
    (addDefaultCMs cd).Orders = cd.Orders := by
  unfold addDefaultCMs; split <;> rfl

@[simp] lemma addDefaultCMs_Comments (cd : CaseData) :
    (addDefaultCMs cd).Comments = cd.Comments := by
  unfold addDefaultCMs; split <;> rfl

lemma addDefaultOrders_len (cd : CaseData) (h : cd.Orders = []) :
    (addDefaultOrders cd).Orders.length = 1 := by
  unfold addDefaultOrders; rw [if_pos h]; rfl

lemma addDefaultComments_len (cd : CaseData) (h : cd.Comments = []) :
    (addDefaultComments cd).Comments.length = 1 := by
  unfold addDefaultComments; rw [if_pos h]; rfl

lemma addDefaultCMs_len (cd : CaseData) (h : cd.CMs = []) :
    (addDefaultCMs cd).CMs.length = 1 := by
  unfold addDefaultCMs; rw [if_pos h]; rfl

@[simp] lemma fillBasic5_Hearing_Date (cells : List Str) (cd : CaseData) :
    (fillBasic5 cells cd).Hearing_Date = cd.Hearing_Date := rfl

@[simp] lemma fillBasic5_Status (cells : List Str) (cd : CaseData) :
    (fillBasic5 cells cd).Status = cd.Status := rfl

@[simp] lemma fillBasic5_Orders (cells : List Str) (cd : CaseData) :
    (fillBasic5 cells cd).Orders = cd.Orders := rfl

@[simp] lemma fillBasic5_Comments (cells : List Str) (cd : CaseData) :
    (fillBasic5 cells cd).Comments = cd.Comments := rfl

@[simp] lemma fillBasic5_CMs (cells : List Str) (cd : CaseData) :
    (fillBasic5 cells cd).CMs = cd.CMs := rfl

@[simp] lemma fillBasic6_Status (cells : List Str) (cd : CaseData) :
    (fillBasic6 cells cd).Status = cd.Status := by
  unfold fillBasic6; split <;> rfl

@[simp] lemma fillBasic6_Orders (cells : List Str) (cd : CaseData) :
    (fillBasic6 cells cd).Orders = cd.Orders := by
  unfold fillBasic6; split <;> rfl

@[simp] lemma fillBasic6_Comments (cells : List Str) (cd : CaseData) :
    (fillBasic6 cells cd).Comments = cd.Comments := by
  unfold fillBasic6; split <;> rfl

@[simp] lemma fillBasic6_CMs (cells : List Str) (cd : CaseData) :
    (fillBasic6 cells cd).CMs = cd.CMs := by
  unfold fillBasic6; split <;> rfl

lemma fillBasic6_lt (cells : List Str) (cd : CaseData) (h : cells.length < 6) :
    fillBasic6 cells cd = cd := by
  unfold fillBasic6; rw [if_neg (by omega)]

@[simp] lemma fillBasic7_Hearing_Date (cells : List Str) (cd : CaseData) :
    (fillBasic7 cells cd).Hearing_Date = cd.Hearing_Date := by
  unfold fillBasic7; split <;> rfl

@[simp] lemma fillBasic7_Orders (cells : List Str) (cd : CaseData) :
    (fillBasic7 cells cd).Orders = cd.Orders := by
  unfold fillBasic7; split <;> rfl

@[simp] lemma fillBasic7_Comments (cells : List Str) (cd : CaseData) :
    (fillBasic7 cells cd).Comments = cd.Comments := by
  unfold fillBasic7; split <;> rfl

@[simp] lemma fillBasic7_CMs (cells : List Str) (cd : CaseData) :
    (fillBasic7 cells cd).CMs = cd.CMs := by
  unfold fillBasic7; split <;> rfl

lemma fillBasic7_lt (cells : List Str) (cd : CaseData) (h : cells.length < 7) :
    fillBasic7 cells cd = cd := by
  unfold fillBasic7; rw [if_neg (by omega)]

lemma fillBasic_lt5 (cells : List Str) (cd : CaseData) (h : cells.length < 5) :
    fillBasic cells cd = cd := by
  unfold fillBasic; rw [if_neg (by omega)]

lemma fillBasic_Hearing_lt6 (cells : List Str) (cd : CaseData)
    (h : cells.length < 6) :
    (fillBasic cells cd).Hearing_Date = cd.Hearing_Date := by
  unfold fillBasic
  split
  · rw [fillBasic7_Hearing_Date, fillBasic6_lt cells _ h, fillBasic5_Hearing_Date]
  · rfl

lemma fillBasic_Status_lt7 (cells : List Str) (cd : CaseData)
    (h : cells.length < 7) :
    (fillBasic cells cd).Status = cd.Status := by
  unfold fillBasic
  split
  · rw [fillBasic7_lt cells _ h, fillBasic6_Status, fillBasic5_Status]
  · rfl

@[simp] lemma fillBasic_Orders (cells : List Str) (cd : CaseData) :
    (fillBasic cells cd).Orders = cd.Orders := by
  unfold fillBasic
  split
  · rw [fillBasic7_Orders, fillBasic6_Orders, fillBasic5_Orders]
  · rfl

@[simp] lemma fillBasic_Comments (cells : List Str) (cd : CaseData) :
    (fillBasic cells cd).Comments = cd.Comments := by
  unfold fillBasic
  split
  · rw [fillBasic7_Comments, fillBasic6_Comments, fillBasic5_Comments]
  · rfl

@[simp] lemma fillBasic_CMs (cells : List Str) (cd : CaseData) :
    (fillBasic cells cd).CMs = cd.CMs := by
  unfold fillBasic
  split
  · rw [fillBasic7_CMs, fillBasic6_CMs, fillBasic5_CMs]
  · rfl

lemma extract_detailed_info_fields (drv : DriverT) (cd : CaseData) :
    (extract_detailed_info drv cd).Case_No = cd.Case_No ∧
    (extract_detailed_info drv cd).Case_Title = cd.Case_Title ∧
    (extract_detailed_info drv cd).Bench = cd.Bench ∧
    (extract_detailed_info drv cd).Hearing_Date = cd.Hearing_Date ∧
    (extract_detailed_info drv cd).Status = cd.Status := by
  have h := extract_detailed_info_scalars drv cd
  simp only [topScalars, Prod.mk.injEq] at h
  exact ⟨h.1, h.2.1, h.2.2.1, h.2.2.2.1, h.2.2.2.2⟩

lemma extract_detailed_info_empty_tables (drv : DriverT) (cd : CaseData)
    (ht : drv.detailTables = []) (ho : cd.Orders = [])
    (hc : cd.Comments = []) (hm : cd.CMs = []) :
    (extract_detailed_info drv cd).Orders.length = 1 ∧
    (extract_detailed_info drv cd).Comments.length = 1 ∧
    (extract_detailed_info drv cd).CMs.length = 1 := by
  unfold extract_detailed_info
  rw [ht]
  simp only [List.foldl_nil]
  unfold detailDefaults
  refine ⟨?_, ?_, ?_⟩
  · rw [addDefaultCMs_Orders, addDefaultComments_Orders]
    exact addDefaultOrders_len cd ho
  · rw [addDefaultCMs_Comments]
    apply addDefaultComments_len
    rw [addDefaultOrders_Comments]
    exact hc
  · apply addDefaultCMs_len
    rw [addDefaultComments_CMs, addDefaultOrders_CMs]
    exact hm

/-- C3: both scrapers build the full fixed key set; in the fast
extractor every scalar field whose heuristic found nothing keeps the
N/A placeholder (the bench list stays empty) while Orders, Comments and
CMs hold exactly one default entry; in the testing extractor a short
row keeps the placeholders and when no detail data is available the
list fields stay empty or hold one default entry. -/
theorem case_record_defaults :
    (∀ k ∈ claimedKeys, k ∈ caseRecordKeys) ∧
    (∀ row sr date c, extract_table_row_data_fast row sr date = some c →
      ((rowTitleScan row).1 = none → c.Case_Title = "N/A".data) ∧
      (parse_hearing_date (rowAllText row) = "N/A".data →
        c.Hearing_Date = "N/A".data) ∧
      (statusSearch (rowAllText row) = none → c.Status = "N/A".data) ∧
      (categorySearch (rowAllText row) = none → c.Case_Category = "N/A".data) ∧
      (parse_bench_names_fast (rowAllText row) = [] → c.Bench = []) ∧
      c.Orders.length = 1 ∧ c.Comments.length = 1 ∧ c.CMs.length = 1) ∧
    (∀ drv row sr,
      (row.cells.length < 5 →
        (extract_case_details drv row sr).Case_No = "N/A".data ∧
        (extract_case_details drv row sr).Case_Title = "N/A".data ∧
        (extract_case_details drv row sr).Bench = [] ∧
        (extract_case_details drv row sr).Hearing_Date = "N/A".data ∧
        (extract_case_details drv row sr).Status = "N/A".data) ∧
      (row.cells.length < 6 →
        (extract_case_details drv row sr).Hearing_Date = "N/A".data) ∧
      (row.cells.length < 7 →
        (extract_case_details drv row sr).Status = "N/A".data) ∧
      (row.hasDetailsButton = false →
        (extract_case_details drv row sr).Orders = [] ∧
        (extract_case_details drv row sr).Comments = [] ∧
        (extract_case_details drv row sr).CMs = []) ∧
      (drv.detailTables = [] →
        (extract_case_details drv row sr).Orders.length ≤ 1 ∧
        (extract_case_details drv row sr).Comments.length ≤ 1 ∧
        (extract_case_details drv row sr).CMs.length ≤ 1)) := by
  refine ⟨by decide, ?_, ?_⟩
  · intro row sr date c hc
    unfold extract_table_row_data_fast at hc
    split at hc
    · exact absurd hc (by simp)
    · dsimp only at hc
      split at hc
      · exact absurd hc (by simp)
      · injection hc with hc
        subst hc
        refine ⟨?_, ?_, ?_, ?_, ?_, ?_, ?_, ?_⟩
        · intro h
          simp only [disposalStage_Case_Title, ordersStage_Case_Title]
          unfold rowFields
          simp only [statusStage_Case_Title, categoryStage_Case_Title,
            hearingStage_Case_Title, benchNamesStage_Case_Title,
            advStage_Case_Title]
          rw [h, titleStage_none]
          simp only [caseNoStage_Case_Title]
          rfl
        · intro h
          simp only [disposalStage_Hearing_Date, ordersStage_Hearing_Date]
          unfold rowFields
          simp only [statusStage_Hearing_Date, categoryStage_Hearing_Date]
          rw [hearingStage_na _ _ h]
          simp only [benchNamesStage_Hearing_Date, advStage_Hearing_Date,
            titleStage_Hearing_Date, caseNoStage_Hearing_Date]
          rfl
        · intro h
          simp only [disposalStage_Status, ordersStage_Status]
          unfold rowFields
          rw [statusStage_none _ _ h]
          simp only [categoryStage_Status, hearingStage_Status,
            benchNamesStage_Status, advStage_Status, titleStage_Status,
            caseNoStage_Status]
          rfl
        · intro h
          simp only [disposalStage_Case_Category, ordersStage_Case_Category]
          unfold rowFields
          simp only [statusStage_Case_Category]
          rw [categoryStage_none _ _ h]
          simp only [hearingStage_Case_Category, benchNamesStage_Case_Category,
            advStage_Case_Category, titleStage_Case_Category,
            caseNoStage_Case_Category]
          rfl
        · intro h
          simp only [disposalStage_Bench, ordersStage_Bench]
          unfold rowFields
          simp only [statusStage_Bench, categoryStage_Bench, hearingStage_Bench]
          rw [benchNamesStage_empty _ _ h]
          simp only [advStage_Bench, titleStage_Bench, caseNoStage_Bench]
          rfl
        · rw [disposalStage_Orders, ordersStage_Orders_length]
        · rw [disposalStage_Comments, ordersStage_Comments_length]
        · rw [disposalStage_CMs, ordersStage_CMs_length]
  · intro drv row sr
    refine ⟨?_, ?_, ?_, ?_, ?_⟩
    · intro h5
      have hfb : fillBasic row.cells (initCaseFast sr "N/A".data)
          = initCaseFast sr "N/A".data := fillBasic_lt5 _ _ h5
      unfold extract_case_details
      dsimp only
      rw [hfb]
      split
      · have hs := extract_detailed_info_fields drv (initCaseFast sr "N/A".data)
        exact ⟨hs.1, hs.2.1, hs.2.2.1, hs.2.2.2.1, hs.2.2.2.2⟩
      · exact ⟨rfl, rfl, rfl, rfl, rfl⟩
    · intro h6
      have hfb : (fillBasic row.cells (initCaseFast sr "N/A".data)).Hearing_Date
          = "N/A".data := fillBasic_Hearing_lt6 _ _ h6
      unfold extract_case_details
      dsimp only
      split
      · rw [(extract_detailed_info_fields drv _).2.2.2.1, hfb]
      · exact hfb
    · intro h7
      have hfb : (fillBasic row.cells (initCaseFast sr "N/A".data)).Status
          = "N/A".data := fillBasic_Status_lt7 _ _ h7
      unfold extract_case_details
      dsimp only
      split
      · rw [(extract_detailed_info_fields drv _).2.2.2.2, hfb]
      · exact hfb
    · intro hbtn
      unfold extract_case_details
      dsimp only
      rw [hbtn]
      simp only [Bool.false_eq_true, if_false]
      exact ⟨fillBasic_Orders _ _, fillBasic_Comments _ _, fillBasic_CMs _ _⟩
    · intro ht
      unfold extract_case_details
      dsimp only
      split
      · have h3 := extract_detailed_info_empty_tables drv
          (fillBasic row.cells (initCaseFast sr "N/A".data)) ht
          (by rw [fillBasic_Orders]; rfl) (by rw [fillBasic_Comments]; rfl)
          (by rw [fillBasic_CMs]; rfl)
        refine ⟨?_, ?_, ?_⟩
        · show (extract_detailed_info drv
            (fillBasic row.cells (initCaseFast sr "N/A".data))).Orders.length ≤ 1
          omega
        · show (extract_detailed_info drv
            (fillBasic row.cells (initCaseFast sr "N/A".data))).Comments.length ≤ 1
          omega
        · show (extract_detailed_info drv
            (fillBasic row.cells (initCaseFast sr "N/A".data))).CMs.length ≤ 1
          omega
      · refine ⟨?_, ?_, ?_⟩ <;> simp [initCaseFast]

/-- Witness driver with no detail tables. -/
def wdrvT : DriverT := ⟨[]⟩

/-- Witness row with a single cell and no Details button. -/
def wrowT : RowT := ⟨["ab".data], false⟩

/-- Witness for case_record_defaults: a short testing row keeps the N/A
placeholders and empty lists. -/
theorem case_record_defaults_witness :
    ("Sr".data ∈ caseRecordKeys) ∧
    wrowT.cells.length < 5 ∧
    (extract_case_details wdrvT wrowT 3).Case_No = "N/A".data ∧
    (extract_case_details wdrvT wrowT 3).Status = "N/A".data ∧
    wrowT.hasDetailsButton = false ∧
    (extract_case_details wdrvT wrowT 3).Orders = [] :=
  ⟨case_record_defaults.1 "Sr".data (by decide), by decide,
   ((case_record_defaults.2.2 wdrvT wrowT 3).1 (by decide)).1,
   ((case_record_defaults.2.2 wdrvT wrowT 3).1 (by decide)).2.2.2.2,
   rfl,
   ((case_record_defaults.2.2 wdrvT wrowT 3).2.2.2.1 rfl).1⟩

/- Model of the page loop of scrape_single_date_fast (src/scraper.py
lines 405 to 470), extract_cases_from_page_fast (lines 360 to 403) and
has_next_page_fast (lines 472 to 489). -/

/-- A results page: the tblCases rows the wait would deliver (error
models a timeout or lookup exception) and the class attribute of the
pagination next control (none models that the control cannot be
located). -/
structure PageM where
  tableRows : Except Unit (List RowM)
  nextBtn : Option Str

/-- The site as the scraper observes it: the advanced-search setup
steps (clicks, waits, navigation; error models any exception raised
there) and, for every number of next-clicks performed, the page then
displayed. -/
structure SiteM where
  searchSetup : Except Unit Unit
  pages : Nat → PageM

/-- Model of has_next_page_fast: false when the pagination control is
missing (the wait raises) or the next button class contains disabled;
otherwise the click is performed and true is returned. -/
def has_next_page_fast (p : PageM) : Bool :=
  match p.nextBtn with
  | none => false
  | some cls => !(hasSubstr "disabled".data cls)

/-- The header words that exclude a row from the data rows. -/
def headerWords : List Str :=
  ["sr".data, "case".data, "title".data, "bench".data]

/-- The data-row filter: at least three cells and a first cell whose
lowered text contains none of the header words. -/
def isDataRow (r : RowM) : Bool :=
  match r.cells with
  | [] => false
  | c0 :: _ =>
    3 ≤ r.cells.length &&
      !(headerWords.any (fun h => hasSubstr h (lowerStr (extract_clean_text c0))))

/-- Python list slicing l[:k] including the negative case. -/
def sliceTo {α : Type} (k : Int) (l : List α) : List α :=
  if 0 ≤ k then l.take k.toNat else l.take (l.length - (-k).toNat)

/-- Model of extract_cases_from_page_fast: when the table wait raises,
the cases collected so far (none yet) are returned; otherwise the data
rows, cut to the per-page limit, are extracted in order with serial
numbers starting at starting_sr, dropped rows skipped. -/
def extract_cases_from_page_fast (page : PageM) (date : Str)
    (page_num : Nat) (starting_sr : Nat) (maxPerPage : Option Int) :
    List CaseData :=
  match page.tableRows with
  | .error _ => []
  | .ok rows =>
    let data_rows := rows.filter isDataRow
    let rows_to_process :=
      match maxPerPage with
      | some k => if k = 0 then data_rows else sliceTo k data_rows
      | none => data_rows
    rows_to_process.enum.foldl (fun cases p =>
      match extract_table_row_data_fast p.2 (starting_sr + p.1) date with
      | some c => cases ++ [c]
      | none => cases) []

/-- The loop break test: max_cases_per_date is set (Python truthiness,
zero counts as unset) and the running total reached it. -/
def limitHit (maxc : Option Nat) (total : Nat) : Bool :=
  match maxc with
  | none => false
  | some m => if m = 0 then false else m ≤ total

/-- The per-page limit passed down: max_cases_per_date minus the
running total when the limit is set. -/
def perPageLimit (maxc : Option Nat) (total : Nat) : Option Int :=
  match maxc with
  | none => none
  | some m => if m = 0 then none else some ((m : Int) - (total : Int))

/-- The while loop of scrape_single_date_fast.  The first component of
the result is the Python return value, the second a ghost trace of the
page numbers processed, kept for the specification.  The loop is
written on structural fuel; the break once the page counter passes 50
bounds the iterations by 50, so any fuel of at least 51 - page gives
the loop itself (pageLoop_fuel below), and the entry point uses 60. -/
def pageLoop (site : SiteM) (date : Str) (maxc : Option Nat) :
    Nat → Nat → Nat → List CaseData → List Nat → List CaseData × List Nat
  | 0, _, _, acc, trace => (acc, trace)
  | fuel + 1, page, total, acc, trace =>
    let pcs := extract_cases_from_page_fast (site.pages (page - 1)) date page
      (total + 1) (perPageLimit maxc total)
    let acc2 := acc ++ pcs
    let total2 := total + pcs.length
    let trace2 := trace ++ [page]
    if limitHit maxc total2 then (acc2, trace2)
    else if has_next_page_fast (site.pages (page - 1)) = false then (acc2, trace2)
    else if 50 < page + 1 then (acc2, trace2)
    else pageLoop site date maxc fuel (page + 1) total2 acc2 trace2

/-- Model of scrape_single_date_fast: any exception in the setup steps
is caught and the empty list returned; otherwise the page loop runs
from page 1. -/
def scrape_single_date_fast (site : SiteM) (date : Str) (maxc : Option Nat) :
    List CaseData × List Nat :=
  match site.searchSetup with
  | .error _ => ([], [])
  | .ok _ => pageLoop site date maxc 60 1 0 [] []

lemma pageLoop_fuel (site : SiteM) (date : Str) (maxc : Option Nat) :
    ∀ f f' page total acc trace, page ≤ 50 → 51 - page ≤ f → 51 - page ≤ f' →
      pageLoop site date maxc f page total acc trace
        = pageLoop site date maxc f' page total acc trace := by
  intro f
  induction f with
  | zero => intro f' page total acc trace hp hf hf'; omega
  | succ f ih =>
    intro f' page total acc trace hp hf hf'
    cases f' with
    | zero => omega
    | succ g =>
      simp only [pageLoop]
      split
      · rfl
      · split
        · rfl
        · split
          · rfl
          · rename_i hcap
            exact ih g (page + 1) _ _ _ (by omega) (by omega) (by omega)

lemma pageLoop_trace_bound (site : SiteM) (date : Str) (maxc : Option Nat) :
    ∀ fuel page total acc trace, 1 ≤ page → page ≤ 50 →
      ∃ k, (pageLoop site date maxc fuel page total acc trace).2
          = trace ++ List.range' page k ∧ k ≤ 51 - page := by
  intro fuel
  induction fuel with
  | zero =>
    intro page total acc trace h1 h2
    exact ⟨0, by simp [pageLoop], by omega⟩
  | succ f ih =>
    intro page total acc trace h1 h2
    simp only [pageLoop]
    split
    · exact ⟨1, by simp [List.range'_one], by omega⟩
    · split
      · exact ⟨1, by simp [List.range'_one], by omega⟩
      · split
        · exact ⟨1, by simp [List.range'_one], by omega⟩
        · rename_i hcap
          obtain ⟨k, hk, hkb⟩ := ih (page + 1) _ _ (trace ++ [page])
            (by omega) (by omega)
          refine ⟨k + 1, ?_, by omega⟩
          rw [hk, List.range'_succ, List.append_assoc]
          rfl

/-- C10: the pagination loop terminates after at most 50 result pages
per date; every processed page number is at most 50. -/
theorem pagination_page_cap (site : SiteM) (date : Str) (maxc : Option Nat) :
    (scrape_single_date_fast site date maxc).2.length ≤ 50 ∧
    ((scrape_single_date_fast site date maxc).2.all (fun p => p ≤ 50)) = true := by
  unfold scrape_single_date_fast
  rcases h : site.searchSetup with he | hv
  · simp
  · obtain ⟨k, hk, hkb⟩ := pageLoop_trace_bound site date maxc 60 1 0 [] []
      (by omega) (by omega)
    rw [hk]
    constructor
    · simp only [List.nil_append, List.length_range']
      omega
    · simp only [List.nil_append, List.all_eq_true]
      intro p hp
      rw [List.mem_range'_1] at hp
      simp only [decide_eq_true_eq]
      omega

lemma pageLoop_trace_exact (site : SiteM) (date : Str) (D : Nat)
    (h1 : 1 ≤ D)
    (hD : ∀ p, 1 ≤ p → p < D → has_next_page_fast (site.pages (p - 1)) = true)
    (hD2 : has_next_page_fast (site.pages (D - 1)) = false) :
    ∀ fuel page total acc trace, 1 ≤ page → page ≤ D → page ≤ 50 →
      51 - page ≤ fuel →
      (pageLoop site date none fuel page total acc trace).2
        = trace ++ List.range' page (min D 50 + 1 - page) := by
  intro fuel
  induction fuel with
  | zero => intro page total acc trace hp1 hpD hp50 hf; omega
  | succ f ih =>
    intro page total acc trace hp1 hpD hp50 hf
    simp only [pageLoop]
    have hlim : limitHit none (total + (extract_cases_from_page_fast
        (site.pages (page - 1)) date page (total + 1)
        (perPageLimit none total)).length) = false := rfl
    rw [hlim]
    simp only [Bool.false_eq_true, if_false]
    by_cases hpage : page = D
    · subst hpage
      rw [if_pos (by rw [hD2])]
      have : min page 50 = page := by omega
      rw [this, Nat.add_sub_cancel_left, List.range'_one]
    · have hlt : page < D := by omega
      rw [if_neg (by rw [hD page hp1 hlt]; simp)]
      by_cases hcap : page = 50
      · subst hcap
        rw [if_pos (by omega)]
        have : min D 50 = 50 := by omega
        rw [this]
        rw [show 50 + 1 - 50 = 1 by omega, List.range'_one]
      · rw [if_neg (by omega)]
        rw [ih (page + 1) _ _ (trace ++ [page]) (by omega) (by omega)
          (by omega) (by omega)]
        rw [List.append_assoc]
        have harith : min D 50 + 1 - page = (min D 50 + 1 - (page + 1)) + 1 := by
          omega
        rw [harith, List.range'_succ]
        rfl

/-- C2 (amended): with no max-cases limit, the single-date loop
processes exactly the pages from 1 up to the first page whose next
control reports disabled or missing, but never more than 50 pages: the
ghost trace of processed pages is the range from 1 to min D 50 where D
is the first page with a disabled next control. -/
theorem pagination_continue_amended (site : SiteM) (date : Str) (D : Nat)
    (hset : site.searchSetup = Except.ok ()) (h1 : 1 ≤ D)
    (hD : ∀ p, 1 ≤ p → p < D → has_next_page_fast (site.pages (p - 1)) = true)
    (hD2 : has_next_page_fast (site.pages (D - 1)) = false) :
    (scrape_single_date_fast site date none).2 = List.range' 1 (min D 50) := by
  unfold scrape_single_date_fast
  rw [hset]
  have h := pageLoop_trace_exact site date D h1 hD hD2 60 1 0 [] []
    (by omega) h1 (by omega) (by omega)
  rw [h, List.nil_append, Nat.add_sub_cancel]

/-- Witness site for the amended pagination claim: next enabled on the
first two pages, disabled on the third. -/
def siteThreePages : SiteM :=
  ⟨Except.ok (), fun k =>
    ⟨Except.ok [],
     some (if k < 2 then "paginate_button next".data
           else "paginate_button next disabled".data)⟩⟩

/-- Witness for pagination_continue_amended: the next control is
disabled on page 3, so pages 1, 2, 3 are processed. -/
theorem pagination_continue_amended_witness :
    siteThreePages.searchSetup = Except.ok () ∧
    has_next_page_fast (siteThreePages.pages 0) = true ∧
    has_next_page_fast (siteThreePages.pages 1) = true ∧
    has_next_page_fast (siteThreePages.pages 2) = false ∧
    (scrape_single_date_fast siteThreePages "01-01-2024".data none).2 = [1, 2, 3] :=
  ⟨rfl, by decide, by decide, by decide, by
    have h := pagination_continue_amended siteThreePages "01-01-2024".data 3 rfl
      (by omega)
      (by intro p hp1 hp3; interval_cases p <;> decide)
      (by decide)
    rw [h]
    decide⟩

/-- The site of the counterexample: every page reports an enabled next
control and an empty table. -/
def siteAlwaysNext : SiteM :=
  ⟨Except.ok (), fun _ => ⟨Except.ok [], some "paginate_button next".data⟩⟩

/-- C2 counterexample: on a site whose next control is never disabled
and with no max-cases limit, the claim as stated would make the loop
continue past page 50, but the loop stops after page 50: the next
control of page 50 is enabled, yet page 51 is never processed. -/
theorem pagination_claim_counterexample :
    has_next_page_fast (siteAlwaysNext.pages 49) = true ∧
    (scrape_single_date_fast siteAlwaysNext "01-01-2024".data none).2
      = List.range' 1 50 ∧
    (51 : Nat) ∉ (scrape_single_date_fast siteAlwaysNext "01-01-2024".data none).2 := by
  refine ⟨by decide, by decide, by decide⟩

/-- C5: any exception while scraping a date is caught and the empty
list returned; extract_cases_from_page_fast returns the cases collected
so far (none are collected before the table wait) when the table lookup
raises; extract_clean_text returns N/A when an access raises. -/
theorem error_handling_defaults :
    (∀ site date maxc, site.searchSetup = Except.error () →
      scrape_single_date_fast site date maxc = ([], [])) ∧
    (∀ page date pn sr mx, page.tableRows = Except.error () →
      extract_cases_from_page_fast page date pn sr mx = []) ∧
    (∀ e : Element, e.textContent = Except.error () →
      extract_clean_text e = "N/A".data) ∧
    (∀ e : Element, e.textContent = Except.ok none →
      e.text = Except.error () → extract_clean_text e = "N/A".data) := by
  refine ⟨?_, ?_, ?_, ?_⟩
  · intro site date maxc h
    simp [scrape_single_date_fast, h]
  · intro page date pn sr mx h
    simp [extract_cases_from_page_fast, h]
  · intro e h
    simp [extract_clean_text, h]
  · intro e h1 h2
    simp [extract_clean_text, h1, h2]

/-- Witness site whose setup raises. -/
def wsiteErr : SiteM := ⟨Except.error (), fun _ => ⟨Except.ok [], none⟩⟩

/-- Witness page whose table wait raises. -/
def wpageErr : PageM := ⟨Except.error (), none⟩

/-- Witness element whose attribute access raises. -/
def welErr : Element := ⟨Except.error (), Except.ok [], false⟩

/-- Witness for error_handling_defaults. -/
theorem error_handling_defaults_witness :
    wsiteErr.searchSetup = Except.error () ∧
    scrape_single_date_fast wsiteErr "x".data none = ([], []) ∧
    wpageErr.tableRows = Except.error () ∧
    extract_cases_from_page_fast wpageErr "x".data 1 1 none = [] ∧
    extract_clean_text welErr = "N/A".data :=
  ⟨rfl, error_handling_defaults.1 wsiteErr "x".data none rfl, rfl,
   error_handling_defaults.2.1 wpageErr "x".data 1 1 none rfl,
   error_handling_defaults.2.2.1 welErr rfl⟩

/- Model of save_results (src/scraper.py lines 602 to 639) and the
final JSON assembly of scrape_ihc_cases (src/scraper_testing.py lines
322 to 337).  The file write is abstracted: the value modelled is the
object passed to json.dump. -/

/-- The scrape configuration dict (mode, start_date, optional
single_date, workers, batch size). -/
structure ConfigM where
  mode : Str
  start_date : Str
  single_date : Option Str
  max_workers : Nat
  batch_size : Nat

/-- The scrape_config object written by save_results. -/
structure ScrapeConfigOut where
  mode : Str
  start_date : Str
  end_date : Str
  max_workers : Nat
  batch_size : Nat
  total_cases : Nat
  fixes_applied : List Str

/-- The object save_results serializes. -/
structure OutputData where
  scrape_config : ScrapeConfigOut
  Cases : List CaseData

/-- The fixes_applied constant of save_results. -/
def fixesApplied : List Str :=
  ["Fixed function structure and indentation".data,
   "Corrected method placement".data,
   "Fixed advocate extraction with popup handling".data,
   "Proper error handling".data,
   "Maintained speed optimizations".data]

/-- Model of save_results: the object handed to json.dump, with the
current date string passed in for datetime.now. -/
def save_results (all_cases : List CaseData) (config : ConfigM)
    (nowDMY : Str) : OutputData :=
  { scrape_config :=
      { mode := config.mode
        start_date := config.start_date
        end_date :=
          if config.mode = "range".data then nowDMY
          else config.single_date.getD config.start_date
        max_workers := config.max_workers
        batch_size := config.batch_size
        total_cases := all_cases.length
        fixes_applied := fixesApplied }
    Cases := all_cases }

/-- The metadata object of scrape_ihc_cases. -/
structure MetadataT where
  search_date : Str
  extraction_date : Str
  total_cases : Nat
  source_url : Str

/-- The final_data object of scrape_ihc_cases. -/
structure FinalDataT where
  metadata : MetadataT
  Cases : List CaseData

/-- Model of the final JSON assembly of scrape_ihc_cases. -/
def scrape_ihc_final_data (search_date extraction_date : Str)
    (all_cases : List CaseData) : FinalDataT :=
  { metadata :=
      { search_date := search_date
        extraction_date := extraction_date
        total_cases := all_cases.length
        source_url := "https://mis.ihc.gov.pk/frmCseSrch".data }
    Cases := all_cases }

/-- C6: the serialized object of either scraper holds exactly the
accumulated records in order under Cases, and its total_cases metadata
equals their count. -/
theorem save_results_exact (cases : List CaseData) (config : ConfigM)
    (nowDMY sd ed : Str) :
    (save_results cases config nowDMY).Cases = cases ∧
    (save_results cases config nowDMY).scrape_config.total_cases = cases.length ∧
    (scrape_ihc_final_data sd ed cases).Cases = cases ∧
    (scrape_ihc_final_data sd ed cases).metadata.total_cases = cases.length :=
  ⟨rfl, rfl, rfl, rfl⟩
